import Mathlib

/-!
Verification of the Snapshot Delta & Rule-Based Alerting Engine
(sql-server-healthcheck-poc).  Shallow embedding of the core Python
modules `alerts.py`, `explainer.py`, `collector.py` and `dashboard.py`
(package `dbmon`): payload dictionaries become insertion-ordered
association lists, Python numbers become `Int`, fallible operations
(Python statements that can raise `TypeError`) return `Except`.
-/

set_option maxRecDepth 8192

namespace DbMon

/-- Scalar values of the Python event/payload dictionaries (the data model's
"payload: ordered mapping of string→scalar").  `none` is Python's `None`. -/
inductive PyVal where
  | none
  | int (n : ℤ)
  | str (s : String)
  | bool (b : Bool)
deriving DecidableEq, Repr

/-- A Python dictionary with string keys, as an insertion-ordered association
list.  `dset` keeps keys pairwise distinct, matching CPython dict semantics. -/
abbrev Dict (α : Type) := List (String × α)

/-- An event payload or raw record: a string-keyed dictionary of scalars. -/
abbrev Item := Dict PyVal

/-- Python `d.get(k)`: the value stored at `k`, if any. -/
def dget {α : Type} : Dict α → String → Option α
  | [], _ => Option.none
  | (k', v) :: rest, k => if k' = k then some v else dget rest k

/-- Python `d[k] = v`: overwrite in place when the key exists, else append. -/
def dset {α : Type} : Dict α → String → α → Dict α
  | [], k, v => [(k, v)]
  | (k', v') :: rest, k, v =>
    if k' = k then (k, v) :: rest else (k', v') :: dset rest k v

/-- Python `d.setdefault(k, v)`: insert only when the key is absent
(a key present with value `None` is kept, exactly as in Python). -/
def dsetdefault {α : Type} (d : Dict α) (k : String) (v : α) : Dict α :=
  if (dget d k).isSome then d else d ++ [(k, v)]

/-- The key list of a dictionary, in insertion order. -/
def dkeys {α : Type} (d : Dict α) : List String := d.map Prod.fst

/-- Python `str(x)` on the scalar values that appear as identity keys. -/
def pyStr : PyVal → String
  | .none => "None"
  | .int n => toString n
  | .str s => s
  | .bool b => if b then "True" else "False"

/-- Python truthiness of a scalar. -/
def pyTruthy : PyVal → Bool
  | .none => false
  | .int n => n != 0
  | .str s => s != ""
  | .bool b => b

/-- A scalar read as a Python number when it is one (`bool` is an `int`
subtype in Python, so `True` counts as `1`). -/
def asNum : PyVal → Option ℤ
  | .int n => some n
  | .bool b => some (if b then 1 else 0)
  | _ => Option.none

/-- Python `==` on scalars: numeric kinds compare by value (`True == 1`),
any other cross-kind comparison is `False`, same-kind is structural. -/
def pyEq (a b : PyVal) : Bool :=
  match asNum a, asNum b with
  | some x, some y => x == y
  | _, _ => a == b

/-- The one Python exception kind these modules can raise on the paths the
claims cover: `TypeError`. -/
inductive PyErr where
  | typeError
deriving DecidableEq, Repr

/-- Python three-way ordering comparison: numbers against numbers, strings
against strings; every other combination (including anything involving
`None`) raises `TypeError`. -/
def pyCompareOrd (a b : PyVal) : Except PyErr Ordering :=
  match asNum a, asNum b with
  | some x, some y => .ok (compare x y)
  | _, _ =>
    match a, b with
    | .str x, .str y => .ok (compare x y)
    | _, _ => .error .typeError

/-- `_compare(value, op, threshold)` of `alerts.py` (lines 21-36): a `None`
value never matches; the six operator strings dispatch to Python comparison
(which can raise `TypeError` on mixed kinds for the four ordering operators);
any other operator falls through to `False`. -/
def compareValue (value : PyVal) (op : PyVal) (threshold : PyVal) :
    Except PyErr Bool :=
  if value == PyVal.none then .ok false
  else if op == PyVal.str ">" then (pyCompareOrd value threshold).map (· == .gt)
  else if op == PyVal.str ">=" then (pyCompareOrd value threshold).map (· != .lt)
  else if op == PyVal.str "<" then (pyCompareOrd value threshold).map (· == .lt)
  else if op == PyVal.str "<=" then (pyCompareOrd value threshold).map (· != .gt)
  else if op == PyVal.str "==" then .ok (pyEq value threshold)
  else if op == PyVal.str "!=" then .ok (!pyEq value threshold)
  else .ok false

/-- Values of an explanation dictionary (`ExplanationResult` carrier): the
templates of `explainer.py` store strings and lists of strings. -/
inductive EVal where
  | s (v : String)
  | sl (v : List String)
deriving DecidableEq, Repr

/-- An explanation dictionary, as produced by `_get_fallback_explanation` or
parsed from the generative backend's JSON answer. -/
abbrev EDict := Dict EVal

/-- A normalized event dictionary: the scalar top-level fields
(`event_type`, `@timestamp`, `host`, `sql_instance`, ...) plus the nested
`payload` dictionary when present. -/
structure Event where
  top : Item
  payload : Option Item
deriving DecidableEq, Repr

/-- `event.get("payload", ...)` with the empty-dict default. -/
def payloadD (e : Event) : Item := e.payload.getD []

/-- `event.get("event_type")` as used by `evaluate_rules` (no default: an
absent type reads as `None`). -/
def evtType (e : Event) : PyVal := (dget e.top "event_type").getD .none

/-- A rule record (one `rules.yaml` entry): the scalar fields the engine
reads, plus the `recommendations` list, which is only ever copied verbatim
into the alerts the rule produces. -/
structure Rule where
  fields : Item
  recommendations : Option (List String)
deriving DecidableEq, Repr

/-- `payload.get(field)` where `field` itself came out of the rule dict: a
non-string `field` (for instance `None` for a rule without one) misses. -/
def dgetV (p : Item) (k : PyVal) : Option PyVal :=
  match k with
  | .str s => dget p s
  | _ => Option.none

/-- One alert record, as assembled by `evaluate_rules` (lines 51-61 of
`alerts.py`). -/
structure Alert where
  timestamp : String
  alert_id : PyVal
  severity : PyVal
  message : PyVal
  event : Event
  explanation : EDict
  recommendations : List String
deriving DecidableEq, Repr

/-- The body of the inner rule loop of `evaluate_rules` for one
(event, rule) pair: skip on an `event_type` mismatch, else compare
`payload[rule.field]` against the threshold and emit one alert on a match.
The explanation call (`explain_event`) is abstracted as the total parameter
`explain` — per the spec it is the evaluation's only nondeterministic part. -/
def evalPair (now : String) (explain : Event → EDict) (event : Event)
    (rule : Rule) : Except PyErr (List Alert) :=
  if pyEq (evtType event) ((dget rule.fields "event_type").getD .none) = false
  then .ok []
  else
    (compareValue
        ((dgetV (payloadD event) ((dget rule.fields "field").getD .none)).getD .none)
        ((dget rule.fields "op").getD .none)
        ((dget rule.fields "value").getD .none)).map fun matched =>
      if matched then
        [{ timestamp := now
           alert_id := (dget rule.fields "id").getD .none
           severity := (dget rule.fields "severity").getD (.str "medium")
           message := (dget rule.fields "message").getD .none
           event := event
           explanation := explain event
           recommendations := rule.recommendations.getD [] }]
      else []

/-- The inner loop of `evaluate_rules`: all rules against one event, alerts
appended in rule order; the first comparison `TypeError` propagates. -/
def evalRulesForEvent (now : String) (explain : Event → EDict) (event : Event) :
    List Rule → Except PyErr (List Alert)
  | [] => .ok []
  | rule :: rest => do
    let a ← evalPair now explain event rule
    let b ← evalRulesForEvent now explain event rest
    pure (a ++ b)

/-- `evaluate_rules(events, rules)` of `alerts.py` (lines 39-62): the nested
event-then-rule loop.  `now` stands for `_now_iso()`. -/
def evaluateRules (now : String) (explain : Event → EDict) :
    List Event → List Rule → Except PyErr (List Alert)
  | [], _ => .ok []
  | e :: es, rules => do
    let a ← evalRulesForEvent now explain e rules
    let b ← evaluateRules now explain es rules
    pure (a ++ b)

/-- Whether a rule matches an event: the type gate passes and the comparison
returns `True` (an erroring comparison never fires — it aborts the batch). -/
def ruleFires (event : Event) (rule : Rule) : Bool :=
  pyEq (evtType event) ((dget rule.fields "event_type").getD .none) &&
    match compareValue
        ((dgetV (payloadD event) ((dget rule.fields "field").getD .none)).getD .none)
        ((dget rule.fields "op").getD .none)
        ((dget rule.fields "value").getD .none) with
    | .ok b => b
    | .error _ => false

/-- The spec's example rule: `slow_queries` with `avg_elapsed_time_ms > 5000`. -/
def rule5000 : Rule :=
  ⟨[("id", .str "slow-queries-5000"), ("event_type", .str "slow_queries"),
    ("field", .str "avg_elapsed_time_ms"), ("op", .str ">"), ("value", .int 5000),
    ("severity", .str "high"), ("message", .str "Slow query detected")],
   some ["Investigate the query plan"]⟩

/-- A `slow_queries` event with an average elapsed time of 15000 ms. -/
def evSlow15000 : Event :=
  ⟨[("event_type", .str "slow_queries")], some [("avg_elapsed_time_ms", .int 15000)]⟩

/-- A `slow_queries` event with an average elapsed time of 4000 ms. -/
def evSlow4000 : Event :=
  ⟨[("event_type", .str "slow_queries")], some [("avg_elapsed_time_ms", .int 4000)]⟩

/-- A `blocking` event carrying the same field the slow-query rule tests. -/
def evBlocking15000 : Event :=
  ⟨[("event_type", .str "blocking")], some [("avg_elapsed_time_ms", .int 15000)]⟩

/-- A `slow_queries` event whose tested field holds a string. -/
def evSlowStr (s : String) : Event :=
  ⟨[("event_type", .str "slow_queries")], some [("avg_elapsed_time_ms", .str s)]⟩

/-- A `slow_queries` event with an empty payload (the rule's field is absent). -/
def evSlowNoField : Event :=
  ⟨[("event_type", .str "slow_queries")], some []⟩

/-- A copy of the slow-query rule with the unrecognized operator "between". -/
def ruleBetween : Rule :=
  ⟨[("event_type", .str "slow_queries"), ("field", .str "avg_elapsed_time_ms"),
    ("op", .str "between"), ("value", .int 5000)], Option.none⟩

/-- Digit grouping: one character of the digit list, with a comma before
position `i` whenever a group of three ends there (`L` is the digit count). -/
def commaGo (L : ℕ) : ℕ → List Char → String
  | _, [] => ""
  | i, c :: rest =>
    (if i ≠ 0 && (L - i) % 3 == 0 then "," else "") ++ String.singleton c ++
      commaGo L (i + 1) rest

/-- Python `format(n, ",.0f")` for an integral value: decimal digits grouped
in threes by commas. -/
def fmtComma (n : ℤ) : String :=
  let sign := if n < 0 then "-" else ""
  let ds := (toString n.natAbs).toList
  sign ++ commaGo ds.length 0 ds

/-- Round `num / den` (`den` positive) to the nearest integer, ties to even
(the rounding of Python's fixed-point float formatting). -/
def roundHalfEven (num den : ℤ) : ℤ :=
  let q := Int.fdiv num den
  let r := num - q * den
  if 2 * r < den then q
  else if 2 * r > den then q + 1
  else if q % 2 = 0 then q else q + 1

/-- Exact rendering of `num/den` to one decimal place (Python's `:.1f` after
a true division).  The source formats the IEEE-754 double, whose last digit
can differ from the exact decimal on representation ties; no theorem below
depends on these digit strings. -/
def fmtFixed1Div (num den : ℤ) : String :=
  let t := roundHalfEven (10 * num) den
  let sign := if t < 0 then "-" else ""
  sign ++ toString (t.natAbs / 10) ++ "." ++ toString (t.natAbs % 10)

/-- Python `f"{v:,.0f}"`: needs a number, else `TypeError`. -/
def fmtCommaVal (v : PyVal) : Except PyErr String :=
  match asNum v with
  | some n => .ok (fmtComma n)
  | Option.none => .error .typeError

/-- Python `f"{v:.0f}"` for an integral value: needs a number, else
`TypeError`. -/
def fmtFixed0Val (v : PyVal) : Except PyErr String :=
  match asNum v with
  | some n => .ok (toString n)
  | Option.none => .error .typeError

/-- Python `f"{v/den:.1f}"`: true division needs a number, else `TypeError`. -/
def fmtFixed1DivVal (v : PyVal) (den : ℤ) : Except PyErr String :=
  match asNum v with
  | some n => .ok (fmtFixed1Div n den)
  | Option.none => .error .typeError

/-- Python `+` on scalars: numbers add, strings concatenate, anything else
raises `TypeError`. -/
def pyAdd (a b : PyVal) : Except PyErr PyVal :=
  match asNum a, asNum b with
  | some x, some y => .ok (.int (x + y))
  | _, _ =>
    match a, b with
    | .str x, .str y => .ok (.str (x ++ y))
    | _, _ => .error .typeError

/-- Python `v[:n]`: prefix of a string; slicing any other scalar raises
`TypeError`. -/
def pySlice (v : PyVal) (n : ℕ) : Except PyErr PyVal :=
  match v with
  | .str s => .ok (.str (s.take n))
  | _ => .error .typeError

/-- Python `v or ""`. -/
def pyOrEmptyStr (v : PyVal) : PyVal := if pyTruthy v then v else .str ""

/-- Lines 84-88 of `explainer.py`: the human-readable timing of a slow
query — formatted as seconds when `avg_ms > 1000`, else as milliseconds. -/
def slowTiming (avg_ms : PyVal) : Except PyErr String := do
  let gt ← (pyCompareOrd avg_ms (.int 1000)).map (· == Ordering.gt)
  if gt then
    let t ← fmtFixed1DivVal avg_ms 1000
    pure (t ++ " seconds")
  else
    let t ← fmtFixed0Val avg_ms
    pure (t ++ " milliseconds")

/-- The `blocking` fallback template (lines 16-31 of `explainer.py`), with
the three interpolated payload strings as arguments. -/
def blockingFallback (blocked blocking wait_ms : String) : EDict :=
  [("summary", .s ("🔒 Your query (session " ++ blocked ++ ") is stuck waiting")),
   ("details", .s ("It\x27s been waiting for " ++ wait_ms ++ " ms because session "
      ++ blocking ++ " is using the same data.")),
   ("analysis", .s "Think of it like waiting in line: someone else is modifying the same table/row you need. Your query can\x27t proceed until they\x27re done."),
   ("recommendations", .sl
     ["👉 If the blocking session is yours: Make sure your code commits or rollbacks the transaction quickly (add COMMIT or ROLLBACK).",
      "👉 If the blocking session is someone else\x27s: Ask them to finish their transaction or contact your DBA.",
      "💡 Prevention: Keep transactions SHORT - don\x27t leave BEGIN TRANSACTION open while waiting for user input or doing long operations.",
      "💡 Add WHERE clauses to update/delete only the rows you need (less blocking for others)."])]

/-- The `deadlocks` fallback template (lines 33-44): fully static. -/
def deadlocksFallback : EDict :=
  [("summary", .s "💀 DEADLOCK: Two queries got stuck waiting for each other"),
   ("details", .s "SQL Server detected a circular wait and killed one of the queries to break the deadlock."),
   ("analysis", .s "Imagine two people at a narrow doorway, each blocking the other. Neither can proceed. This happens when queries lock tables in different orders."),
   ("recommendations", .sl
     ["👉 IMMEDIATE FIX: Retry the failed query - it will work now that the deadlock is broken.",
      "💡 Long-term fix: Always access tables in the SAME ORDER in all your code (e.g., always update Users before Orders, not sometimes reversed).",
      "💡 Use smaller transactions - don\x27t lock multiple tables at once if you can avoid it.",
      "💡 Add proper indexes to make queries faster (less time holding locks = fewer deadlocks)."])]

/-- The `open_transactions` fallback template (lines 46-59). -/
def openTxFallback (txn session : String) : EDict :=
  [("summary", .s ("⚠️ A transaction has been left open (session " ++ session ++ ")")),
   ("details", .s ("Transaction " ++ txn ++ " started but never finished with COMMIT or ROLLBACK.")),
   ("analysis", .s "It\x27s like leaving your database \x27in progress\x27 - the database is holding locks waiting for you to say \x27I\x27m done!\x27 This blocks other users and can cause slowdowns."),
   ("recommendations", .sl
     ["👉 CHECK YOUR CODE: Do you have a BEGIN TRANSACTION without a matching COMMIT or ROLLBACK?",
      "👉 COMMON BUG: Exceptions/errors in your code might skip the COMMIT. Always use try/catch/finally to ensure transactions complete.",
      "💡 Code pattern: BEGIN TRANSACTION → do work → if success COMMIT else ROLLBACK",
      "💡 Avoid: Transactions spanning multiple API calls or user interactions (transaction should complete in milliseconds, not minutes)."])]

/-- The `missing_indexes` fallback template (lines 61-76); `total` is the
computed `seeks + scans`. -/
def missingIndexesFallback (table impact : String) (total : PyVal) : EDict :=
  [("summary", .s ("📊 SQL Server suggests adding an index to " ++ table)),
   ("details", .s ("Your queries would be ~" ++ impact ++ "% faster. This suggestion came from "
      ++ pyStr total ++ " queries scanning this table.")),
   ("analysis", .s "Without an index, the database reads EVERY row in the table to find what you need (like reading a book page by page instead of using the index). An index makes lookups instant."),
   ("recommendations", .sl
     ["👉 SHARE THIS WITH YOUR DBA: They can add the index safely in production.",
      "💡 For learning: In SQL Server Management Studio, run your slow query and click \x27Display Estimated Execution Plan\x27 - green text shows missing index suggestions.",
      "💡 Quick test: Ask your DBA to add the index in a test database first to verify the improvement.",
      "💡 The suggested columns to index are shown in the data (equality_columns, inequality_columns)."])]

/-- The `slow_queries` fallback template (lines 90-101); `timing` and
`reads` are the formatted duration and page count. -/
def slowQueriesFallback (exec_count query_text : PyVal) (timing reads : String) : EDict :=
  [("summary", .s ("🐢 Slow query taking " ++ timing ++ " on average")),
   ("details", .s ("Executed " ++ pyStr exec_count ++ " times. Reading " ++ reads
      ++ " data pages per execution. Query: " ++ pyStr query_text ++ "...")),
   ("analysis", .s "Your query is taking too long. This could be: (1) missing indexes (searching row-by-row), (2) fetching too much data, or (3) joining too many tables inefficiently."),
   ("recommendations", .sl
     ["👉 STEP 1: Add WHERE clauses to filter data early - don\x27t fetch everything then filter in your code.",
      "👉 STEP 2: Only SELECT the columns you actually need (avoid SELECT *).",
      "💡 Check for missing indexes: Run your query in SQL Server Management Studio → Query → Display Estimated Execution Plan → look for table scans or missing index hints.",
      "💡 Large result sets? Use pagination (OFFSET/FETCH or TOP N) instead of loading thousands of rows.",
      "💡 Joins: Make sure you\x27re joining on indexed columns (usually primary/foreign keys)."])]

/-- The `cpu_memory` fallback template (lines 109-119). -/
def cpuMemoryFallback (cpu avail total sql_in_use : String) : EDict :=
  [("summary", .s "💻 Server resource snapshot"),
   ("details", .s ("CPU: " ++ cpu ++ "% | Available memory: " ++ avail ++ " MB of "
      ++ total ++ " MB | SQL Server using: " ++ sql_in_use ++ " MB")),
   ("analysis", .s "High CPU means queries are working hard (calculations, sorting, etc.). Low memory means the server might be swapping to disk (very slow)."),
   ("recommendations", .sl
     ["👉 HIGH CPU? Look at slow queries above - one expensive query can max out CPU.",
      "💡 If CPU is constantly high: Consider adding indexes, optimizing queries, or scaling up your server.",
      "💡 LOW MEMORY? Contact your DBA - they may need to adjust SQL Server memory settings or add more RAM.",
      "💡 For developers: Write efficient queries (use WHERE, avoid functions in WHERE clause, use proper joins)."])]

/-- The `tempdb_health` fallback template (lines 127-137). -/
def tempdbFallback (free_mb user_mb internal_mb : String) : EDict :=
  [("summary", .s "🗄️ TempDB (SQL Server\x27s scratch space) status"),
   ("details", .s ("Free space: " ++ free_mb ++ " MB | User objects: " ++ user_mb
      ++ " MB | Internal: " ++ internal_mb ++ " MB")),
   ("analysis", .s "TempDB is like SQL Server\x27s notepad - it stores temporary tables, sorting results, etc. If it fills up, queries will fail or become very slow."),
   ("recommendations", .sl
     ["👉 LOW SPACE? Check if your code is creating large #TempTables or doing ORDER BY on huge result sets.",
      "💡 Avoid: SELECT * from large tables then sorting - filter with WHERE first to reduce data.",
      "💡 Avoid: Huge JOIN results that need sorting - add indexes to avoid TempDB spills.",
      "💡 #TempTables: Make sure you DROP them when done (they use TempDB space)."])]

/-- The unrecognized-type fallback template (lines 139-144): fully static. -/
def unknownFallback : EDict :=
  [("summary", .s "📊 Database metric captured"),
   ("details", .s "This metric is being tracked for monitoring trends."),
   ("analysis", .s "No specific issue detected with this metric right now."),
   ("recommendations", .sl
     ["Keep monitoring - if values change significantly, it might indicate a problem."])]

/-- `_get_fallback_explanation(event)` of `explainer.py` (lines 11-144): the
deterministic per-event-type template catalog.  Plain `f"{x}"` interpolation
is `pyStr`; numeric format specifiers and arithmetic raise `TypeError`
exactly where the Python expressions would. -/
def fallbackExplanation (event : Event) : Except PyErr EDict :=
  let event_type := (dget event.top "event_type").getD (.str "unknown")
  let payload := payloadD event
  if event_type == PyVal.str "blocking" then
    .ok (blockingFallback (pyStr ((dget payload "blocked_session_id").getD .none))
      (pyStr ((dget payload "blocking_session_id").getD .none))
      (pyStr ((dget payload "wait_time_ms").getD .none)))
  else if event_type == PyVal.str "deadlocks" then
    .ok deadlocksFallback
  else if event_type == PyVal.str "open_transactions" then
    .ok (openTxFallback (pyStr ((dget payload "transaction_id").getD .none))
      (pyStr ((dget payload "session_id").getD (.str "unknown"))))
  else if event_type == PyVal.str "missing_indexes" then do
    let seeks := (dget payload "user_seeks").getD (.int 0)
    let scans := (dget payload "user_scans").getD (.int 0)
    let total ← pyAdd seeks scans
    .ok (missingIndexesFallback (pyStr ((dget payload "table_name").getD .none))
      (pyStr ((dget payload "avg_user_impact").getD .none)) total)
  else if event_type == PyVal.str "slow_queries" then do
    let avg_ms := (dget payload "avg_elapsed_time_ms").getD (.int 0)
    let exec_count := (dget payload "execution_count").getD (.int 0)
    let query_text ← pySlice (pyOrEmptyStr ((dget payload "query_text").getD .none)) 200
    let avg_reads := (dget payload "avg_logical_reads").getD (.int 0)
    let timing ← slowTiming avg_ms
    let reads ← fmtCommaVal avg_reads
    .ok (slowQueriesFallback exec_count query_text timing reads)
  else if event_type == PyVal.str "cpu_memory" then do
    let cpu := pyStr ((dget payload "cpu_percent").getD .none)
    let avail ← fmtCommaVal ((dget payload "available_memory_mb").getD .none)
    let total ← fmtCommaVal ((dget payload "total_memory_mb").getD (.int 0))
    let sql_in_use ← fmtCommaVal ((dget payload "sql_memory_in_use_mb").getD (.int 0))
    .ok (cpuMemoryFallback cpu avail total sql_in_use)
  else if event_type == PyVal.str "tempdb_health" then do
    let free_kb := (dget payload "free_space_kb").getD (.int 0)
    let free_mb ← fmtFixed1DivVal free_kb 1024
    let user_kb := (dget payload "user_objects_kb").getD (.int 0)
    let internal_kb := (dget payload "internal_objects_kb").getD (.int 0)
    let user_mb ← fmtFixed1DivVal user_kb 1024
    let internal_mb ← fmtFixed1DivVal internal_kb 1024
    .ok (tempdbFallback free_mb user_mb internal_mb)
  else
    .ok unknownFallback

/-- The return value of `_call_ollama_ai` (lines 147-214 of `explainer.py`),
with the HTTP layer abstracted: `resp = none` is a network error or timeout
(caught, yielding `None`); otherwise the status code paired with the result
of parsing the fence-stripped response text as JSON.  A parse failure is
caught and yields `None`, a non-200 status falls through to `None`, and a
successfully parsed dictionary is returned WITHOUT any shape validation. -/
def callOllamaAI (resp : Option (ℤ × Except PyErr EDict)) : Option EDict :=
  match resp with
  | Option.none => Option.none
  | some (status, parsed) =>
    if status == 200 then
      match parsed with
      | .ok d => some d
      | .error _ => Option.none
    else Option.none

/-- `explain_event(event)` (lines 217-229 of `explainer.py`): try the primary
backend when `use_ai_analysis` is set and return its result when truthy (a
non-empty parsed dictionary), else fall back to the deterministic templates. -/
def explainEvent (useAI : Bool) (resp : Option (ℤ × Except PyErr EDict))
    (event : Event) : Except PyErr EDict :=
  if useAI then
    match callOllamaAI resp with
    | some r => if r.isEmpty then fallbackExplanation event else .ok r
    | Option.none => fallbackExplanation event
  else fallbackExplanation event

/-- The four fields of a well-formed ExplanationResult, in template order. -/
def explKeys : List String := ["summary", "details", "analysis", "recommendations"]

/-- A non-empty explanation value: a non-empty string or list. -/
def eValNonEmpty : EVal → Bool
  | .s v => v ≠ ""
  | .sl l => !l.isEmpty

/-- Every field of an explanation dictionary is non-empty. -/
def explNonEmpty (d : EDict) : Bool := d.all fun kv => eValNonEmpty kv.2

/-- The payload field is absent (the template's coded-in default applies) or
holds a number. -/
def numOrAbsent (p : Item) (k : String) : Bool :=
  match dget p k with
  | Option.none => true
  | some v => (asNum v).isSome

/-- The payload field is absent, a string, or falsy (so `x or ""` slices a
string). -/
def strOrFalsy (p : Item) (k : String) : Bool :=
  match dget p k with
  | Option.none => true
  | some (.str _) => true
  | some v => !pyTruthy v

/-- A `blocking` event with a fully populated payload. -/
def evBlockingExpl : Event :=
  ⟨[("event_type", .str "blocking")],
   some [("blocked_session_id", .int 52), ("blocking_session_id", .int 53),
         ("wait_type", .str "LCK_M_X"), ("wait_time_ms", .int 4000)]⟩

/-- An event of an unrecognized type. -/
def evCustomMetric : Event :=
  ⟨[("event_type", .str "custom_metric")], some [("value", .int 7)]⟩

/-- A `slow_queries` event averaging exactly 1000 ms. -/
def slowEv1000 : Event :=
  ⟨[("event_type", .str "slow_queries")],
   some [("avg_elapsed_time_ms", .int 1000), ("execution_count", .int 3),
         ("query_text", .str "SELECT * FROM Orders"), ("avg_logical_reads", .int 12345)]⟩

/-- A `slow_queries` event averaging 2000 ms. -/
def slowEv2000 : Event :=
  ⟨[("event_type", .str "slow_queries")], some [("avg_elapsed_time_ms", .int 2000)]⟩

/-- The payload shapes on which `_get_fallback_explanation` cannot raise:
the numeric format specifiers and arithmetic of the templates need numbers
(or the coded-in defaults), and the slow-query text slice needs a string or
a falsy value.  In particular `cpu_memory` needs a present, numeric
`available_memory_mb` — that field has no default in the source. -/
def fallbackSafe (event : Event) : Bool :=
  let p := payloadD event
  let et := (dget event.top "event_type").getD (.str "unknown")
  if et == PyVal.str "missing_indexes" then
    numOrAbsent p "user_seeks" && numOrAbsent p "user_scans"
  else if et == PyVal.str "slow_queries" then
    numOrAbsent p "avg_elapsed_time_ms" && strOrFalsy p "query_text" &&
      numOrAbsent p "avg_logical_reads"
  else if et == PyVal.str "cpu_memory" then
    (asNum ((dget p "available_memory_mb").getD .none)).isSome &&
      numOrAbsent p "total_memory_mb" && numOrAbsent p "sql_memory_in_use_mb"
  else if et == PyVal.str "tempdb_health" then
    numOrAbsent p "free_space_kb" && numOrAbsent p "user_objects_kb" &&
      numOrAbsent p "internal_objects_kb"
  else true

/-- One element of the loop of `collect_mock` (lines 75-80 of
`collector.py`): `event_copy = {**event}`, overwrite `@timestamp` with the
collection time, then `setdefault` the ambient `host` and `sql_instance`. -/
def collectMockOne (now host_name sql_inst : String) (e : Event) : Event :=
  { top := dsetdefault (dsetdefault (dset e.top "@timestamp" (.str now))
      "host" (.str host_name)) "sql_instance" (.str sql_inst)
    payload := e.payload }

/-- `collect_mock(sample_events)` (lines 72-81 of `collector.py`): enrich
every sample record with the same collection timestamp and the ambient
identity strings; the loop builds copies, so the input records are not
mutated (the embedding is pure). -/
def collectMock (now host_name sql_inst : String) (events : List Event) : List Event :=
  events.map (collectMockOne now host_name sql_inst)

/-- A replayed sample record already carrying all three ambient fields. -/
def evReplayed : Event :=
  ⟨[("@timestamp", .str "2020-01-01T00:00:00Z"), ("host", .str "prod-host"),
    ("sql_instance", .str "PRODSQL"), ("event_type", .str "blocking")],
   some [("blocking_session_id", .int 9)]⟩

/-- The identity key `_calculate_delta` derives for a current item
(line 108 of `dashboard.py`): `str(item.get(key_field))` — an absent field
stringifies Python-style to "None". -/
def itemKey (keyField : String) (item : Item) : String :=
  pyStr ((dget item keyField).getD .none)

/-- The dict comprehension of line 108: `current_by_key`, in which a later
item overwrites an earlier one with the same key, insertion order kept. -/
def buildByKey (keyField : String) (items : List Item) : Dict Item :=
  items.foldl (fun d item => dset d (itemKey keyField item) item) []

/-- The fixed sensitive-field list of lines 130-131 of `dashboard.py`. -/
def sensitiveFields : List String :=
  ["elapsed_time_ms", "cpu_time_ms", "logical_reads", "duration_seconds",
   "wait_time_ms", "transaction_begin_time", "status", "message"]

/-- One field-level difference record (lines 134-138). -/
structure FieldChange where
  field : String
  old : PyVal
  new : PyVal
deriving DecidableEq, Repr

/-- The changed-field scan of lines 129-138: a sensitive field present in
both items whose values differ under Python `!=`. -/
def changedFields (current previous : Item) : List FieldChange :=
  sensitiveFields.filterMap fun f =>
    match dget current f, dget previous f with
    | some cv, some pv =>
      if pyEq cv pv then Option.none else some ⟨f, pv, cv⟩
    | _, _ => Option.none

/-- The result of `_calculate_delta` (lines 112-150).  The source stores a
changed item as `{**current, "changed_fields": changed_fields}`; the extra
key only wraps the pair for the frontend, so `changed` is modelled as the
(current event, changed-field list) pair — the spec's own `DeltaResult`
shape.  `all` is the untouched input list. -/
structure DeltaResult where
  new : List Item
  changed : List (Item × List FieldChange)
  resolved : List Item
  all : List Item
deriving DecidableEq, Repr

/-- `_calculate_delta(current_items, previous_items, key_field)` of
`dashboard.py` (lines 99-150); `previous_items` is the `dict[str, Any]`
snapshot keyed by identity.  The source iterates `new_keys`,
`current_keys & previous_keys` and `resolved_keys` as Python sets, whose
order is unspecified; the embedding iterates in dictionary insertion order
(one of the admissible orders) — the claims below are order-independent. -/
def calculateDelta (currentItems : List Item) (previousItems : Dict Item)
    (keyField : String) : DeltaResult :=
  let currentByKey := buildByKey keyField currentItems
  let previousKeys := dkeys previousItems
  let currentKeys := dkeys currentByKey
  { new := (currentByKey.filter fun kv => !(previousKeys.contains kv.1)).map Prod.snd
    changed := (currentByKey.filter fun kv => previousKeys.contains kv.1).filterMap
      fun kv =>
        match dget previousItems kv.1 with
        | some prev =>
          let cf := changedFields kv.2 prev
          if cf.isEmpty then Option.none else some (kv.2, cf)
        | Option.none => Option.none
    resolved := (previousItems.filter fun kv => !(currentKeys.contains kv.1)).map Prod.snd
    all := currentItems }

/-- The identity keys of a delta's `new` list. -/
def newKeys (d : DeltaResult) (keyField : String) : List String :=
  d.new.map (itemKey keyField)

/-- The identity keys of a delta's `changed` list. -/
def changedKeys (d : DeltaResult) (keyField : String) : List String :=
  d.changed.map fun c => itemKey keyField c.1

/-- The spec's "unchanged" class, which the source computes but does not
emit (its partition reads `new ∪ changed ∪ unchanged = current batch`):
keys present in both snapshots all of whose sensitive fields agree. -/
def specUnchangedKeys (currentItems : List Item) (previousItems : Dict Item)
    (keyField : String) : List String :=
  ((buildByKey keyField currentItems).filter fun kv =>
    (dkeys previousItems).contains kv.1 &&
      (changedFields kv.2 ((dget previousItems kv.1).getD [])).isEmpty).map Prod.fst

/-- The spec's resolved-key set: `previous.keys - current.keys`. -/
def specResolvedKeys (currentItems : List Item) (previousItems : Dict Item)
    (keyField : String) : List String :=
  (dkeys previousItems).filter fun k =>
    !((dkeys (buildByKey keyField currentItems)).contains k)

/-- The identity key `_get_latest_collection` derives from one stored
document (lines 84-91 of `dashboard.py`): the raw `session_id` value when
that field is present, else the first 100 characters of `query_text`, else
the raw `deadlock_id` value, else absent. -/
def latestCollectionKey (source : Item) : Except PyErr (Option PyVal) :=
  if (dget source "session_id").isSome then .ok (dget source "session_id")
  else if (dget source "query_text").isSome then
    (pySlice ((dget source "query_text").getD (.str "")) 100).map some
  else if (dget source "deadlock_id").isSome then .ok (dget source "deadlock_id")
  else .ok Option.none

/-- The grouping loop of `_get_latest_collection` (lines 81-96): keep the
first (most recent, given the descending-time sort) document per truthy
key; the resulting dictionary is keyed by the raw Python value. -/
def getLatestCollection (sources : List Item) : Except PyErr (List (PyVal × Item)) :=
  sources.foldlM
    (fun acc source => do
      let key ← latestCollectionKey source
      match key with
      | some k =>
        if pyTruthy k && !(acc.any fun kv => pyEq kv.1 k) then
          pure (acc ++ [(k, source)])
        else
          pure acc
      | Option.none => pure acc)
    []

/-- A previous blocking observation under identity key "7". -/
def evPrev7 : Item := [("session_id", .int 7), ("elapsed_time_ms", .int 1000)]

/-- The same condition one cycle later: `elapsed_time_ms` grew to 2000. -/
def evCur7 : Item := [("session_id", .int 7), ("elapsed_time_ms", .int 2000)]

/-- Two current items colliding on identity key "1". -/
def evDupA : Item := [("session_id", .int 1), ("status", .str "A")]

/-- The second item of the key collision. -/
def evDupB : Item := [("session_id", .int 1), ("status", .str "B")]

/-- The spec's key-priority payload: both `session_id` and `query_text`. -/
def srcSessionAndText : Item :=
  [("session_id", .int 5), ("query_text", .str "SELECT 1")]

theorem evalPair_ok_length {now : String} {explain : Event → EDict} {event : Event}
    {rule : Rule} {l : List Alert} (h : evalPair now explain event rule = .ok l) :
    l.length = if ruleFires event rule then 1 else 0 := by
  unfold evalPair at h
  unfold ruleFires
  split at h
  · rename_i hgate
    rw [Except.ok.injEq] at h
    simp [← h, hgate]
  · rename_i hgate
    rw [Bool.not_eq_false] at hgate
    rw [hgate]
    cases hc : compareValue
        ((dgetV (payloadD event) ((dget rule.fields "field").getD .none)).getD .none)
        ((dget rule.fields "op").getD .none)
        ((dget rule.fields "value").getD .none) with
    | error e =>
      rw [hc] at h
      simp [Except.map] at h
    | ok b =>
      rw [hc] at h
      simp only [Except.map, Except.ok.injEq] at h
      cases b <;> simp [← h]

theorem evalRulesForEvent_ok_length {now : String} {explain : Event → EDict}
    {event : Event} : ∀ {rules : List Rule} {l : List Alert},
    evalRulesForEvent now explain event rules = .ok l →
    l.length = (rules.filter (ruleFires event)).length := by
  intro rules
  induction rules with
  | nil =>
    intro l h
    simp only [evalRulesForEvent, Except.ok.injEq] at h
    simp [← h]
  | cons r rs ih =>
    intro l h
    simp only [evalRulesForEvent] at h
    cases hp : evalPair now explain event r with
    | error e =>
      rw [hp] at h
      simp only [Bind.bind, Except.bind, Functor.map, Except.map] at h
      exact absurd h (by simp)
    | ok a =>
      rw [hp] at h
      cases hr : evalRulesForEvent now explain event rs with
      | error e =>
        rw [hr] at h
        simp only [Bind.bind, Except.bind, Functor.map, Except.map] at h
        exact absurd h (by simp)
      | ok b =>
        rw [hr] at h
        simp only [Bind.bind, Except.bind, Functor.map, Except.map, pure,
          Except.pure, Except.ok.injEq] at h
        have h1 := evalPair_ok_length hp
        have h2 := ih hr
        rw [← h]
        by_cases hf : ruleFires event r
        · simp [List.filter_cons, hf, h1, h2]
          omega
        · simp [List.filter_cons, hf, h1, h2]

theorem evaluateRules_ok_length {now : String} {explain : Event → EDict} :
    ∀ {events : List Event} {rules : List Rule} {l : List Alert},
    evaluateRules now explain events rules = .ok l →
    l.length = (events.map fun e => (rules.filter (ruleFires e)).length).sum := by
  intro events
  induction events with
  | nil =>
    intro rules l h
    simp only [evaluateRules, Except.ok.injEq] at h
    simp [← h]
  | cons e es ih =>
    intro rules l h
    simp only [evaluateRules] at h
    cases hp : evalRulesForEvent now explain e rules with
    | error err =>
      rw [hp] at h
      simp only [Bind.bind, Except.bind, Functor.map, Except.map] at h
      exact absurd h (by simp)
    | ok a =>
      rw [hp] at h
      cases hr : evaluateRules now explain es rules with
      | error err =>
        rw [hr] at h
        simp only [Bind.bind, Except.bind, Functor.map, Except.map] at h
        exact absurd h (by simp)
      | ok b =>
        rw [hr] at h
        simp only [Bind.bind, Except.bind, Functor.map, Except.map, pure,
          Except.pure, Except.ok.injEq] at h
        have h1 := evalRulesForEvent_ok_length hp
        have h2 := ih hr
        simp [← h, h1, h2]

/-- C4: rule evaluation gates on `event_type` equality and emits exactly one
alert per (event, matching rule) pair.  The spec's concrete triple: the
`avg_elapsed_time_ms > 5000` rule yields one alert against a `slow_queries`
event at 15000, none at 4000, and none against a `blocking` event carrying
the same field; a rule whose field is absent from the payload never matches
and never raises; in general a successful evaluation returns one alert per
(event, rule) pair for which the rule fires. -/
theorem C4_rule_matching :
    (∀ (now : String) (explain : Event → EDict),
      (evaluateRules now explain [evSlow15000] [rule5000]).map List.length = .ok 1 ∧
      (evaluateRules now explain [evSlow4000] [rule5000]).map List.length = .ok 0 ∧
      (evaluateRules now explain [evBlocking15000] [rule5000]).map List.length = .ok 0) ∧
    (∀ (now : String) (explain : Event → EDict) (e : Event) (r : Rule),
      pyEq (evtType e) ((dget r.fields "event_type").getD .none) = false →
      evaluateRules now explain [e] [r] = .ok []) ∧
    (∀ (now : String) (explain : Event → EDict) (e : Event) (r : Rule),
      dgetV (payloadD e) ((dget r.fields "field").getD .none) = Option.none →
      evaluateRules now explain [e] [r] = .ok []) ∧
    (∀ (now : String) (explain : Event → EDict) (events : List Event)
        (rules : List Rule) (l : List Alert),
      evaluateRules now explain events rules = .ok l →
      l.length = (events.map fun e => (rules.filter (ruleFires e)).length).sum) := by
  refine ⟨fun now explain => ⟨rfl, rfl, rfl⟩, ?_, ?_, ?_⟩
  · intro now explain e r hgate
    simp [evaluateRules, evalRulesForEvent, evalPair, hgate, Bind.bind, Except.bind,
      Functor.map, Except.map, pure, Except.pure]
  · intro now explain e r hfield
    by_cases hgate : pyEq (evtType e) ((dget r.fields "event_type").getD .none) = false
    · simp [evaluateRules, evalRulesForEvent, evalPair, hgate, Bind.bind, Except.bind,
        Functor.map, Except.map, pure, Except.pure]
    · simp [evaluateRules, evalRulesForEvent, evalPair, hgate, hfield, compareValue,
        Bind.bind, Except.bind, Functor.map, Except.map, pure, Except.pure]
  · intro now explain events rules l h
    exact evaluateRules_ok_length h

/-- Witness for C4 at concrete inputs: the three example evaluations, a
type-mismatched pair and an absent-field pair. -/
theorem C4_rule_matching_witness :
    (evaluateRules "t" (fun _ => []) [evSlow15000] [rule5000]).map List.length = .ok 1 ∧
    (evaluateRules "t" (fun _ => []) [evSlow4000] [rule5000]).map List.length = .ok 0 ∧
    (evaluateRules "t" (fun _ => []) [evBlocking15000] [rule5000]).map List.length = .ok 0 ∧
    evaluateRules "t" (fun _ => []) [evBlocking15000] [rule5000] = .ok [] ∧
    evaluateRules "t" (fun _ => []) [evSlowNoField] [rule5000] = .ok [] ∧
    (∃ l, evaluateRules "t" (fun _ => [])
        [evSlow15000, evSlow4000, evBlocking15000] [rule5000] = .ok l ∧
      l.length = ([evSlow15000, evSlow4000, evBlocking15000].map fun e =>
        ([rule5000].filter (ruleFires e)).length).sum) := by
  refine ⟨(C4_rule_matching.1 "t" _).1, (C4_rule_matching.1 "t" _).2.1,
    (C4_rule_matching.1 "t" _).2.2, ?_, ?_, ?_⟩
  · exact C4_rule_matching.2.1 "t" _ _ _ (by decide)
  · exact C4_rule_matching.2.2.1 "t" _ _ _ (by decide)
  · exact ⟨_, rfl, C4_rule_matching.2.2.2 "t" (fun _ => [])
      [evSlow15000, evSlow4000, evBlocking15000] [rule5000] _ rfl⟩

/-- C5 counterexample: comparing the string value "abc" against the integer
threshold 5 with `>` raises `TypeError` inside `_compare` rather than being
treated as a non-match — the claim's "never throws" is false on the code. -/
theorem C5_counterexample :
    compareValue (.str "abc") (.str ">") (.int 5) = .error .typeError ∧
    (compareValue (.str "abc") (.str ">") (.int 5)).isOk = false :=
  ⟨rfl, rfl⟩

/-- C5 as amended: the four ordering operators raise `TypeError` on a
string/number kind mismatch (and the error propagates out of
`evaluate_rules`, aborting the batch); only `==` and `!=` on incomparable
kinds are safe non-match/match, and a `None` value is a non-match for every
operator. -/
theorem C5_type_mismatch :
    ∀ (s : String) (n : ℤ),
      compareValue (.str s) (.str ">") (.int n) = .error .typeError ∧
      compareValue (.str s) (.str ">=") (.int n) = .error .typeError ∧
      compareValue (.str s) (.str "<") (.int n) = .error .typeError ∧
      compareValue (.str s) (.str "<=") (.int n) = .error .typeError ∧
      compareValue (.int n) (.str ">") (.str s) = .error .typeError ∧
      compareValue (.str s) (.str "==") (.int n) = .ok false ∧
      compareValue (.str s) (.str "!=") (.int n) = .ok true ∧
      (∀ (op v : PyVal), compareValue .none op v = .ok false) ∧
      (∀ (now : String) (explain : Event → EDict),
        evaluateRules now explain [evSlowStr s] [rule5000] = .error .typeError) := by
  intro s n
  exact ⟨rfl, rfl, rfl, rfl, rfl, rfl, rfl, fun op v => rfl, fun now explain => rfl⟩

/-- C10: an operator string other than the six recognized ones makes
`_compare` return `False` for every value and threshold, so such a rule
silently never matches and never raises. -/
theorem C10_unknown_operator :
    ∀ (op : PyVal), op ≠ .str ">" → op ≠ .str ">=" → op ≠ .str "<" →
      op ≠ .str "<=" → op ≠ .str "==" → op ≠ .str "!=" →
      (∀ (v t : PyVal), compareValue v op t = .ok false) ∧
      (∀ (now : String) (explain : Event → EDict) (e : Event) (r : Rule),
        (dget r.fields "op").getD .none = op →
        evaluateRules now explain [e] [r] = .ok []) := by
  intro op h1 h2 h3 h4 h5 h6
  have hcmp : ∀ (v t : PyVal), compareValue v op t = .ok false := by
    intro v t
    unfold compareValue
    split_ifs with g1 g2 g3 g4 g5 g6 g7 <;> try rfl
    · exact absurd (by simpa using g2) h1
    · exact absurd (by simpa using g3) h2
    · exact absurd (by simpa using g4) h3
    · exact absurd (by simpa using g5) h4
    · exact absurd (by simpa using g6) h5
    · exact absurd (by simpa using g7) h6
  refine ⟨hcmp, ?_⟩
  intro now explain e r hop
  by_cases hgate : pyEq (evtType e) ((dget r.fields "event_type").getD .none) = false
  · simp [evaluateRules, evalRulesForEvent, evalPair, hgate, Bind.bind, Except.bind,
      Functor.map, Except.map, pure, Except.pure]
  · simp [evaluateRules, evalRulesForEvent, evalPair, hgate, hop, hcmp, Bind.bind,
      Except.bind, Functor.map, Except.map, pure, Except.pure]

/-- Witness for C10: the "between" operator at concrete inputs. -/
theorem C10_unknown_operator_witness :
    compareValue (.int 99999) (.str "between") (.int 5000) = .ok false ∧
    evaluateRules "t" (fun _ => []) [evSlow15000] [ruleBetween] = .ok [] := by
  have h := C10_unknown_operator (.str "between") (by decide) (by decide)
    (by decide) (by decide) (by decide) (by decide)
  exact ⟨h.1 _ _, h.2 "t" _ _ _ rfl⟩

theorem strAppNe {a : String} (b : String) (h : a ≠ "") : a ++ b ≠ "" := by
  intro hab
  have hl : (a ++ b).length = 0 := by rw [hab]; rfl
  rw [String.length_append] at hl
  have h0 : a.length = 0 := by omega
  apply h
  cases a with
  | mk data =>
    cases data with
    | nil => rfl
    | cons c cs => simp [String.length] at h0

theorem blockingFallback_wf (a b c : String) :
    (blockingFallback a b c).map Prod.fst = explKeys ∧
    explNonEmpty (blockingFallback a b c) = true := by
  refine ⟨rfl, ?_⟩
  simp only [explNonEmpty, blockingFallback, List.all_cons, List.all_nil, eValNonEmpty,
    Bool.and_true, Bool.and_eq_true, decide_eq_true_eq]
  refine ⟨?_, ?_, ?_, ?_⟩
  · exact strAppNe _ (strAppNe _ (by decide))
  · exact strAppNe _ (strAppNe _ (strAppNe _ (strAppNe _ (by decide))))
  · decide
  · decide

theorem deadlocksFallback_wf :
    deadlocksFallback.map Prod.fst = explKeys ∧ explNonEmpty deadlocksFallback = true :=
  ⟨rfl, by decide⟩

theorem openTxFallback_wf (a b : String) :
    (openTxFallback a b).map Prod.fst = explKeys ∧
    explNonEmpty (openTxFallback a b) = true := by
  refine ⟨rfl, ?_⟩
  simp only [explNonEmpty, openTxFallback, List.all_cons, List.all_nil, eValNonEmpty,
    Bool.and_true, Bool.and_eq_true, decide_eq_true_eq]
  refine ⟨?_, ?_, ?_, ?_⟩
  · exact strAppNe _ (strAppNe _ (by decide))
  · exact strAppNe _ (strAppNe _ (by decide))
  · decide
  · decide

theorem missingIndexesFallback_wf (a b : String) (t : PyVal) :
    (missingIndexesFallback a b t).map Prod.fst = explKeys ∧
    explNonEmpty (missingIndexesFallback a b t) = true := by
  refine ⟨rfl, ?_⟩
  simp only [explNonEmpty, missingIndexesFallback, List.all_cons, List.all_nil, eValNonEmpty,
    Bool.and_true, Bool.and_eq_true, decide_eq_true_eq]
  refine ⟨?_, ?_, ?_, ?_⟩
  · exact strAppNe _ (by decide)
  · exact strAppNe _ (strAppNe _ (strAppNe _ (strAppNe _ (by decide))))
  · decide
  · decide

theorem slowQueriesFallback_wf (ec qt : PyVal) (timing reads : String) :
    (slowQueriesFallback ec qt timing reads).map Prod.fst = explKeys ∧
    explNonEmpty (slowQueriesFallback ec qt timing reads) = true := by
  refine ⟨rfl, ?_⟩
  simp only [explNonEmpty, slowQueriesFallback, List.all_cons, List.all_nil, eValNonEmpty,
    Bool.and_true, Bool.and_eq_true, decide_eq_true_eq]
  refine ⟨?_, ?_, ?_, ?_⟩
  · exact strAppNe _ (strAppNe _ (by decide))
  · exact strAppNe _ (strAppNe _ (strAppNe _ (strAppNe _ (strAppNe _ (strAppNe _ (by decide))))))
  · decide
  · decide

theorem cpuMemoryFallback_wf (a b c d : String) :
    (cpuMemoryFallback a b c d).map Prod.fst = explKeys ∧
    explNonEmpty (cpuMemoryFallback a b c d) = true := by
  refine ⟨rfl, ?_⟩
  simp only [explNonEmpty, cpuMemoryFallback, List.all_cons, List.all_nil, eValNonEmpty,
    Bool.and_true, Bool.and_eq_true, decide_eq_true_eq]
  refine ⟨?_, ?_, ?_, ?_⟩
  · decide
  · exact strAppNe _ (strAppNe _ (strAppNe _ (strAppNe _ (strAppNe _ (strAppNe _
      (strAppNe _ (strAppNe _ (by decide))))))))
  · decide
  · decide

theorem tempdbFallback_wf (a b c : String) :
    (tempdbFallback a b c).map Prod.fst = explKeys ∧
    explNonEmpty (tempdbFallback a b c) = true := by
  refine ⟨rfl, ?_⟩
  simp only [explNonEmpty, tempdbFallback, List.all_cons, List.all_nil, eValNonEmpty,
    Bool.and_true, Bool.and_eq_true, decide_eq_true_eq]
  refine ⟨?_, ?_, ?_, ?_⟩
  · decide
  · exact strAppNe _ (strAppNe _ (strAppNe _ (strAppNe _ (strAppNe _ (strAppNe _ (by decide))))))
  · decide
  · decide

theorem unknownFallback_wf :
    unknownFallback.map Prod.fst = explKeys ∧ explNonEmpty unknownFallback = true :=
  ⟨rfl, by decide⟩

theorem numOrAbsent_asNum {p : Item} {k : String} (h : numOrAbsent p k = true) :
    (asNum ((dget p k).getD (.int 0))).isSome = true := by
  unfold numOrAbsent at h
  cases hd : dget p k with
  | none => rfl
  | some v => rw [hd] at h; simpa using h

theorem fmtCommaVal_ok {v : PyVal} (h : (asNum v).isSome = true) :
    ∃ s, fmtCommaVal v = .ok s := by
  unfold fmtCommaVal
  cases hn : asNum v with
  | none => rw [hn] at h; simp at h
  | some n => exact ⟨_, rfl⟩

theorem fmtFixed1DivVal_ok {v : PyVal} (den : ℤ) (h : (asNum v).isSome = true) :
    ∃ s, fmtFixed1DivVal v den = .ok s := by
  unfold fmtFixed1DivVal
  cases hn : asNum v with
  | none => rw [hn] at h; simp at h
  | some n => exact ⟨_, rfl⟩

theorem pyAdd_ok {a b : PyVal} (ha : (asNum a).isSome = true)
    (hb : (asNum b).isSome = true) : ∃ w, pyAdd a b = .ok w := by
  unfold pyAdd
  cases hx : asNum a with
  | none => rw [hx] at ha; simp at ha
  | some x =>
    cases hy : asNum b with
    | none => rw [hy] at hb; simp at hb
    | some y => exact ⟨_, rfl⟩

theorem slowTiming_ok {v : PyVal} (h : (asNum v).isSome = true) :
    ∃ s, slowTiming v = .ok s := by
  obtain ⟨n, hn⟩ := Option.isSome_iff_exists.mp h
  have h1000 : asNum (PyVal.int 1000) = some 1000 := rfl
  simp only [slowTiming, pyCompareOrd, fmtFixed1DivVal, fmtFixed0Val, hn, h1000,
    Except.map, Bind.bind, Except.bind, pure, Except.pure]
  by_cases hc : (compare n 1000 == Ordering.gt) = true
  · rw [if_pos hc]
    exact ⟨_, rfl⟩
  · rw [if_neg hc]
    exact ⟨_, rfl⟩

theorem sliceQt_ok {p : Item} {k : String} (h : strOrFalsy p k = true) :
    ∃ w, pySlice (pyOrEmptyStr ((dget p k).getD .none)) 200 = .ok w := by
  unfold strOrFalsy at h
  cases hd : dget p k with
  | none => exact ⟨_, rfl⟩
  | some v =>
    rw [hd] at h
    cases v with
    | str s =>
      by_cases ht : pyTruthy (.str s) = true <;>
        simp [pyOrEmptyStr, ht, pySlice]
    | none => exact ⟨_, rfl⟩
    | int n =>
      simp only [Option.getD_some] at h ⊢
      have hf : pyTruthy (PyVal.int n) = false := by simpa using h
      simp [pyOrEmptyStr, hf, pySlice]
    | bool b =>
      simp only [Option.getD_some] at h ⊢
      have hf : pyTruthy (PyVal.bool b) = false := by simpa using h
      simp [pyOrEmptyStr, hf, pySlice]

theorem fallback_eq_blocking {event : Event}
    (h : (dget event.top "event_type").getD (.str "unknown") = PyVal.str "blocking") :
    fallbackExplanation event = .ok (blockingFallback
      (pyStr ((dget (payloadD event) "blocked_session_id").getD .none))
      (pyStr ((dget (payloadD event) "blocking_session_id").getD .none))
      (pyStr ((dget (payloadD event) "wait_time_ms").getD .none))) := by
  unfold fallbackExplanation
  rw [h]
  rfl

theorem fallback_eq_deadlocks {event : Event}
    (h : (dget event.top "event_type").getD (.str "unknown") = PyVal.str "deadlocks") :
    fallbackExplanation event = .ok deadlocksFallback := by
  unfold fallbackExplanation
  rw [h]
  rfl

theorem fallback_eq_openTx {event : Event}
    (h : (dget event.top "event_type").getD (.str "unknown") = PyVal.str "open_transactions") :
    fallbackExplanation event = .ok (openTxFallback
      (pyStr ((dget (payloadD event) "transaction_id").getD .none))
      (pyStr ((dget (payloadD event) "session_id").getD (.str "unknown")))) := by
  unfold fallbackExplanation
  rw [h]
  rfl

theorem fallback_eq_missing {event : Event}
    (h : (dget event.top "event_type").getD (.str "unknown") = PyVal.str "missing_indexes") :
    fallbackExplanation event =
      (pyAdd ((dget (payloadD event) "user_seeks").getD (.int 0))
          ((dget (payloadD event) "user_scans").getD (.int 0))).bind fun total =>
        .ok (missingIndexesFallback
          (pyStr ((dget (payloadD event) "table_name").getD .none))
          (pyStr ((dget (payloadD event) "avg_user_impact").getD .none)) total) := by
  unfold fallbackExplanation
  rw [h]
  rfl

theorem fallback_eq_slow {event : Event}
    (h : (dget event.top "event_type").getD (.str "unknown") = PyVal.str "slow_queries") :
    fallbackExplanation event =
      (pySlice (pyOrEmptyStr ((dget (payloadD event) "query_text").getD .none)) 200).bind
        fun query_text =>
      (slowTiming ((dget (payloadD event) "avg_elapsed_time_ms").getD (.int 0))).bind
        fun timing =>
      (fmtCommaVal ((dget (payloadD event) "avg_logical_reads").getD (.int 0))).bind
        fun reads =>
      .ok (slowQueriesFallback ((dget (payloadD event) "execution_count").getD (.int 0))
        query_text timing reads) := by
  unfold fallbackExplanation
  rw [h]
  rfl

theorem fallback_eq_cpu {event : Event}
    (h : (dget event.top "event_type").getD (.str "unknown") = PyVal.str "cpu_memory") :
    fallbackExplanation event =
      (fmtCommaVal ((dget (payloadD event) "available_memory_mb").getD .none)).bind
        fun avail =>
      (fmtCommaVal ((dget (payloadD event) "total_memory_mb").getD (.int 0))).bind
        fun total =>
      (fmtCommaVal ((dget (payloadD event) "sql_memory_in_use_mb").getD (.int 0))).bind
        fun sql_in_use =>
      .ok (cpuMemoryFallback (pyStr ((dget (payloadD event) "cpu_percent").getD .none))
        avail total sql_in_use) := by
  unfold fallbackExplanation
  rw [h]
  rfl

theorem fallback_eq_tempdb {event : Event}
    (h : (dget event.top "event_type").getD (.str "unknown") = PyVal.str "tempdb_health") :
    fallbackExplanation event =
      (fmtFixed1DivVal ((dget (payloadD event) "free_space_kb").getD (.int 0)) 1024).bind
        fun free_mb =>
      (fmtFixed1DivVal ((dget (payloadD event) "user_objects_kb").getD (.int 0)) 1024).bind
        fun user_mb =>
      (fmtFixed1DivVal ((dget (payloadD event) "internal_objects_kb").getD (.int 0)) 1024).bind
        fun internal_mb =>
      .ok (tempdbFallback free_mb user_mb internal_mb) := by
  unfold fallbackExplanation
  rw [h]
  rfl

theorem fallback_eq_unknown {event : Event}
    (h1 : (dget event.top "event_type").getD (.str "unknown") ≠ PyVal.str "blocking")
    (h2 : (dget event.top "event_type").getD (.str "unknown") ≠ PyVal.str "deadlocks")
    (h3 : (dget event.top "event_type").getD (.str "unknown") ≠ PyVal.str "open_transactions")
    (h4 : (dget event.top "event_type").getD (.str "unknown") ≠ PyVal.str "missing_indexes")
    (h5 : (dget event.top "event_type").getD (.str "unknown") ≠ PyVal.str "slow_queries")
    (h6 : (dget event.top "event_type").getD (.str "unknown") ≠ PyVal.str "cpu_memory")
    (h7 : (dget event.top "event_type").getD (.str "unknown") ≠ PyVal.str "tempdb_health") :
    fallbackExplanation event = .ok unknownFallback := by
  unfold fallbackExplanation
  simp [beq_eq_false_iff_ne.mpr h1, beq_eq_false_iff_ne.mpr h2, beq_eq_false_iff_ne.mpr h3,
    beq_eq_false_iff_ne.mpr h4, beq_eq_false_iff_ne.mpr h5, beq_eq_false_iff_ne.mpr h6,
    beq_eq_false_iff_ne.mpr h7]

theorem fallback_ok_of_safe (event : Event) (h : fallbackSafe event = true) :
    ∃ d, fallbackExplanation event = .ok d ∧ d.map Prod.fst = explKeys ∧
      explNonEmpty d = true := by
  unfold fallbackSafe at h
  by_cases h1 : (dget event.top "event_type").getD (.str "unknown") = PyVal.str "blocking"
  · exact ⟨_, fallback_eq_blocking h1, (blockingFallback_wf _ _ _).1,
      (blockingFallback_wf _ _ _).2⟩
  by_cases h2 : (dget event.top "event_type").getD (.str "unknown") = PyVal.str "deadlocks"
  · exact ⟨_, fallback_eq_deadlocks h2, deadlocksFallback_wf.1, deadlocksFallback_wf.2⟩
  by_cases h3 : (dget event.top "event_type").getD (.str "unknown") = PyVal.str "open_transactions"
  · exact ⟨_, fallback_eq_openTx h3, (openTxFallback_wf _ _).1, (openTxFallback_wf _ _).2⟩
  by_cases h4 : (dget event.top "event_type").getD (.str "unknown") = PyVal.str "missing_indexes"
  · rw [h4] at h
    simp at h
    obtain ⟨hs, hc⟩ := h
    obtain ⟨w, hw⟩ := pyAdd_ok (numOrAbsent_asNum hs) (numOrAbsent_asNum hc)
    have heq : fallbackExplanation event = .ok (missingIndexesFallback
        (pyStr ((dget (payloadD event) "table_name").getD .none))
        (pyStr ((dget (payloadD event) "avg_user_impact").getD .none)) w) := by
      rw [fallback_eq_missing h4, hw]
      rfl
    exact ⟨_, heq, (missingIndexesFallback_wf _ _ _).1, (missingIndexesFallback_wf _ _ _).2⟩
  by_cases h5 : (dget event.top "event_type").getD (.str "unknown") = PyVal.str "slow_queries"
  · rw [h5] at h
    simp at h
    obtain ⟨⟨ha, hq⟩, hr⟩ := h
    obtain ⟨qt, hqt⟩ := sliceQt_ok hq
    obtain ⟨tim, htim⟩ := slowTiming_ok (numOrAbsent_asNum ha)
    obtain ⟨rd, hrd⟩ := fmtCommaVal_ok (numOrAbsent_asNum hr)
    have heq : fallbackExplanation event = .ok (slowQueriesFallback
        ((dget (payloadD event) "execution_count").getD (.int 0)) qt tim rd) := by
      rw [fallback_eq_slow h5, hqt]
      simp only [Except.bind]
      rw [htim]
      simp only [Except.bind]
      rw [hrd]
    exact ⟨_, heq, (slowQueriesFallback_wf _ _ _ _).1, (slowQueriesFallback_wf _ _ _ _).2⟩
  by_cases h6 : (dget event.top "event_type").getD (.str "unknown") = PyVal.str "cpu_memory"
  · rw [h6] at h
    simp at h
    obtain ⟨⟨hv, ht2⟩, hs2⟩ := h
    obtain ⟨av, hav⟩ := fmtCommaVal_ok hv
    obtain ⟨tv, htv⟩ := fmtCommaVal_ok (numOrAbsent_asNum ht2)
    obtain ⟨sv, hsv⟩ := fmtCommaVal_ok (numOrAbsent_asNum hs2)
    have heq : fallbackExplanation event = .ok (cpuMemoryFallback
        (pyStr ((dget (payloadD event) "cpu_percent").getD .none)) av tv sv) := by
      rw [fallback_eq_cpu h6, hav]
      simp only [Except.bind]
      rw [htv]
      simp only [Except.bind]
      rw [hsv]
    exact ⟨_, heq, (cpuMemoryFallback_wf _ _ _ _).1, (cpuMemoryFallback_wf _ _ _ _).2⟩
  by_cases h7 : (dget event.top "event_type").getD (.str "unknown") = PyVal.str "tempdb_health"
  · rw [h7] at h
    simp at h
    obtain ⟨⟨hf, hu⟩, hi⟩ := h
    obtain ⟨fv, hfv⟩ := fmtFixed1DivVal_ok 1024 (numOrAbsent_asNum hf)
    obtain ⟨uv, huv⟩ := fmtFixed1DivVal_ok 1024 (numOrAbsent_asNum hu)
    obtain ⟨iv, hiv⟩ := fmtFixed1DivVal_ok 1024 (numOrAbsent_asNum hi)
    have heq : fallbackExplanation event = .ok (tempdbFallback fv uv iv) := by
      rw [fallback_eq_tempdb h7, hfv]
      simp only [Except.bind]
      rw [huv]
      simp only [Except.bind]
      rw [hiv]
    exact ⟨_, heq, (tempdbFallback_wf _ _ _).1, (tempdbFallback_wf _ _ _).2⟩
  exact ⟨_, fallback_eq_unknown h1 h2 h3 h4 h5 h6 h7, unknownFallback_wf.1,
    unknownFallback_wf.2⟩

/-- C2 as amended: `explain_event` returns the deterministic fallback
whenever AI analysis is disabled or the primary call fails (network error,
timeout, non-200 status, unparsable response); the fallback carries exactly
the four fields `summary`, `details`, `analysis`, `recommendations`, all
non-empty, for every event whose payload satisfies the templates' typing
needs (any of the seven known event types and any unknown type).  A truthy
parsed response from the primary, however, is returned verbatim without
shape validation — the claim's "incomplete response falls back" and
"always exactly four fields" do not hold on the code. -/
theorem C2_explain_reliability :
    ∀ (event : Event) (resp : Option (ℤ × Except PyErr EDict)),
      explainEvent false resp event = fallbackExplanation event ∧
      (callOllamaAI resp = Option.none →
        explainEvent true resp event = fallbackExplanation event) ∧
      (∀ d, callOllamaAI resp = some d → d ≠ [] →
        explainEvent true resp event = .ok d) ∧
      (fallbackSafe event = true →
        ∃ d, fallbackExplanation event = .ok d ∧ d.map Prod.fst = explKeys ∧
          explNonEmpty d = true) := by
  intro event resp
  refine ⟨rfl, ?_, ?_, fallback_ok_of_safe event⟩
  · intro hn
    simp [explainEvent, hn]
  · intro d hd hne
    cases d with
    | nil => exact absurd rfl hne
    | cons kv rest => simp [explainEvent, hd, List.isEmpty]

/-- Witness for C2 at concrete inputs: with the primary unavailable, a
known-type event and an unknown-type event both get the well-formed
four-field fallback, and a truthy parsed primary result is passed through. -/
theorem C2_explain_reliability_witness :
    explainEvent true Option.none evBlockingExpl = fallbackExplanation evBlockingExpl ∧
    (∃ d, fallbackExplanation evBlockingExpl = .ok d ∧ d.map Prod.fst = explKeys ∧
      explNonEmpty d = true) ∧
    (∃ d, fallbackExplanation evCustomMetric = .ok d ∧ d.map Prod.fst = explKeys ∧
      explNonEmpty d = true) ∧
    explainEvent true (some (200, .ok [("summary", EVal.s "hi")])) evCustomMetric =
      .ok [("summary", EVal.s "hi")] :=
  ⟨(C2_explain_reliability evBlockingExpl Option.none).2.1 rfl,
   (C2_explain_reliability evBlockingExpl Option.none).2.2.2 (by decide),
   (C2_explain_reliability evCustomMetric Option.none).2.2.2 (by decide),
   (C2_explain_reliability evCustomMetric (some (200, .ok [("summary", EVal.s "hi")]))).2.2.1
     [("summary", EVal.s "hi")] rfl (by decide)⟩

/-- C2 counterexample: the primary backend answers 200 with the valid but
incomplete JSON object containing only a `summary` field; `explain_event`
returns it verbatim — not the fallback, and not a four-field result — so
the claim as stated is false on the code. -/
theorem C2_counterexample :
    explainEvent true (some (200, .ok [("summary", EVal.s "hi")])) evCustomMetric =
      .ok [("summary", EVal.s "hi")] ∧
    ([(("summary" : String), EVal.s "hi")].map Prod.fst ≠ explKeys) :=
  ⟨rfl, by decide⟩

/-- C9 as amended: the slow-query fallback formats the average duration in
seconds exactly when `avg_elapsed_time_ms` is strictly greater than 1000
(at exactly 1000 ms it reads milliseconds), and that timing string is
interpolated into the fallback summary. -/
theorem C9_slow_timing_format :
    ∀ (n : ℤ) (event : Event),
      (1000 < n → slowTiming (.int n) = .ok (fmtFixed1Div n 1000 ++ " seconds")) ∧
      (n ≤ 1000 → slowTiming (.int n) = .ok (toString n ++ " milliseconds")) ∧
      ((dget event.top "event_type").getD (.str "unknown") = PyVal.str "slow_queries" →
        fallbackSafe event = true →
        (dget (payloadD event) "avg_elapsed_time_ms").getD (.int 0) = .int n →
        ∃ t d, slowTiming (.int n) = .ok t ∧ fallbackExplanation event = .ok d ∧
          dget d "summary" = some (.s ("🐢 Slow query taking " ++ t ++ " on average"))) := by
  intro n event
  have hgt : ∀ m : ℤ, (compare n m == Ordering.gt) = true ↔ m < n := by
    intro m
    constructor
    · intro h
      have hc : compare n m = Ordering.gt := by
        cases hcm : compare n m <;> rw [hcm] at h <;> first | rfl | exact absurd h (by decide)
      exact compare_gt_iff_gt.mp hc
    · intro h
      rw [compare_gt_iff_gt.mpr h]
      rfl
  refine ⟨?_, ?_, ?_⟩
  · intro hn
    have hc : (compare n 1000 == Ordering.gt) = true := (hgt 1000).mpr hn
    simp only [slowTiming, pyCompareOrd, fmtFixed1DivVal, fmtFixed0Val, Except.map,
      Bind.bind, Except.bind, pure, Except.pure, asNum]
    rw [if_pos hc]
  · intro hn
    have hc : ¬((compare n 1000 == Ordering.gt) = true) := by
      rw [hgt 1000]
      omega
    simp only [slowTiming, pyCompareOrd, fmtFixed1DivVal, fmtFixed0Val, Except.map,
      Bind.bind, Except.bind, pure, Except.pure, asNum]
    rw [if_neg hc]
  · intro het hsafe havg
    unfold fallbackSafe at hsafe
    rw [het] at hsafe
    simp at hsafe
    obtain ⟨⟨ha, hq⟩, hr⟩ := hsafe
    obtain ⟨qt, hqt⟩ := sliceQt_ok hq
    obtain ⟨rd, hrd⟩ := fmtCommaVal_ok (numOrAbsent_asNum hr)
    obtain ⟨tim, htim⟩ := slowTiming_ok (v := PyVal.int n) (by rfl)
    refine ⟨tim, slowQueriesFallback ((dget (payloadD event) "execution_count").getD (.int 0))
      qt tim rd, htim, ?_, rfl⟩
    rw [fallback_eq_slow het, hqt]
    simp only [Except.bind]
    rw [havg, htim]
    simp only [Except.bind]
    rw [hrd]

/-- C9 counterexample: at exactly 1000 ms the fallback summary reads
milliseconds, not seconds — the claim's "greater than or equal to 1000
formats as seconds" fails at the boundary (the code tests `> 1000`). -/
theorem C9_counterexample :
    slowTiming (.int 1000) = .ok "1000 milliseconds" ∧
    "1000 milliseconds" ≠ fmtFixed1Div 1000 1000 ++ " seconds" ∧
    (fallbackExplanation slowEv1000).toOption.bind (fun d => dget d "summary") =
      some (.s "🐢 Slow query taking 1000 milliseconds on average") ∧
    "🐢 Slow query taking 1000 milliseconds on average" ≠
      "🐢 Slow query taking " ++ (fmtFixed1Div 1000 1000 ++ " seconds") ++ " on average" :=
  ⟨rfl, by decide, rfl, by decide⟩

/-- Witness for C9 at concrete inputs: 2000 ms formats as seconds, 500 ms as
milliseconds, and the timing string lands in the concrete summary. -/
theorem C9_slow_timing_format_witness :
    slowTiming (.int 2000) = .ok (fmtFixed1Div 2000 1000 ++ " seconds") ∧
    slowTiming (.int 500) = .ok (toString (500 : ℤ) ++ " milliseconds") ∧
    (∃ t d, slowTiming (.int 2000) = .ok t ∧ fallbackExplanation slowEv2000 = .ok d ∧
      dget d "summary" = some (.s ("🐢 Slow query taking " ++ t ++ " on average"))) :=
  ⟨(C9_slow_timing_format 2000 slowEv2000).1 (by decide),
   (C9_slow_timing_format 500 slowEv2000).2.1 (by decide),
   (C9_slow_timing_format 2000 slowEv2000).2.2 rfl (by decide) rfl⟩

theorem dget_dset_self {α : Type} (d : Dict α) (k : String) (v : α) :
    dget (dset d k v) k = some v := by
  induction d with
  | nil => simp [dset, dget]
  | cons kv rest ih =>
    obtain ⟨a, b⟩ := kv
    by_cases h : a = k
    · simp [dset, dget, h]
    · simp [dset, dget, h, ih]

theorem dget_dset_ne {α : Type} (d : Dict α) {k k' : String} (v : α) (h : k ≠ k') :
    dget (dset d k v) k' = dget d k' := by
  induction d with
  | nil => simp [dset, dget, h]
  | cons kv rest ih =>
    obtain ⟨a, b⟩ := kv
    by_cases ha : a = k
    · subst ha
      simp [dset, dget, h, ih]
    · simp [dset, dget, ha, ih]

theorem dget_append_left {α : Type} {d : Dict α} (d' : Dict α) {k : String} {v : α}
    (h : dget d k = some v) : dget (d ++ d') k = some v := by
  induction d with
  | nil => simp [dget] at h
  | cons kv rest ih =>
    obtain ⟨a, b⟩ := kv
    by_cases ha : a = k
    · simp [dget, ha] at h ⊢
      exact h
    · simp [dget, ha] at h ⊢
      exact ih h

theorem dget_append_right {α : Type} {d : Dict α} (d' : Dict α) {k : String}
    (h : dget d k = Option.none) : dget (d ++ d') k = dget d' k := by
  induction d with
  | nil => simp [dget]
  | cons kv rest ih =>
    obtain ⟨a, b⟩ := kv
    by_cases ha : a = k
    · simp [dget, ha] at h
    · simp [dget, ha] at h ⊢
      exact ih h

theorem dsetdefault_present {α : Type} {d : Dict α} {k : String} (v : α)
    (h : (dget d k).isSome = true) : dsetdefault d k v = d := by
  simp [dsetdefault, h]

theorem dget_dsetdefault_absent {α : Type} {d : Dict α} {k : String} (v : α)
    (h : dget d k = Option.none) : dget (dsetdefault d k v) k = some v := by
  rw [dsetdefault, if_neg (by simp [h])]
  rw [dget_append_right _ h]
  simp [dget]

theorem dget_dsetdefault_ne {α : Type} (d : Dict α) {k k' : String} (v : α)
    (h : k ≠ k') : dget (dsetdefault d k v) k' = dget d k' := by
  unfold dsetdefault
  split
  · rfl
  · cases hd : dget d k' with
    | none =>
      rw [dget_append_right _ hd]
      simp [dget, h]
    | some w => exact dget_append_left _ hd


/-- C6 counterexample: a replayed record already carrying
`@timestamp = 2020-01-01...` gets it overwritten with the collection time —
the claim's "a carried timestamp is preserved" is false on the code
(line 77 of `collector.py` assigns unconditionally). -/
theorem C6_counterexample :
    dget (collectMockOne "2026-02-03T04:05:06Z" "localhost" "unknown" evReplayed).top
      "@timestamp" = some (.str "2026-02-03T04:05:06Z") ∧
    some (PyVal.str "2026-02-03T04:05:06Z") ≠ some (PyVal.str "2020-01-01T00:00:00Z") ∧
    dget evReplayed.top "@timestamp" = some (.str "2020-01-01T00:00:00Z") :=
  ⟨rfl, by decide, rfl⟩

/-- C6 as amended: `collect_mock` preserves a carried `host` and
`sql_instance` and fills the ambient values only when they are absent, it
leaves every other field and the payload untouched, and the input is not
mutated (a fresh copy is built) — but `@timestamp` is always overwritten
with the collection time, carried or not. -/
theorem C6_collect_mock_enrichment :
    ∀ (now host_name sql_inst : String) (e : Event),
      dget (collectMockOne now host_name sql_inst e).top "@timestamp" =
        some (.str now) ∧
      (∀ v, dget e.top "host" = some v →
        dget (collectMockOne now host_name sql_inst e).top "host" = some v) ∧
      (dget e.top "host" = Option.none →
        dget (collectMockOne now host_name sql_inst e).top "host" =
          some (.str host_name)) ∧
      (∀ v, dget e.top "sql_instance" = some v →
        dget (collectMockOne now host_name sql_inst e).top "sql_instance" = some v) ∧
      (dget e.top "sql_instance" = Option.none →
        dget (collectMockOne now host_name sql_inst e).top "sql_instance" =
          some (.str sql_inst)) ∧
      (collectMockOne now host_name sql_inst e).payload = e.payload ∧
      (∀ k, k ≠ "@timestamp" → k ≠ "host" → k ≠ "sql_instance" →
        dget (collectMockOne now host_name sql_inst e).top k = dget e.top k) ∧
      collectMock now host_name sql_inst [e] = [collectMockOne now host_name sql_inst e] := by
  intro now host_name sql_inst e
  refine ⟨?_, ?_, ?_, ?_, ?_, rfl, ?_, rfl⟩
  · rw [collectMockOne]
    rw [dget_dsetdefault_ne _ _ (by decide), dget_dsetdefault_ne _ _ (by decide),
      dget_dset_self]
  · intro v hv
    have h1 : dget (dset e.top "@timestamp" (.str now)) "host" = some v := by
      rw [dget_dset_ne _ _ (by decide)]
      exact hv
    rw [collectMockOne]
    rw [dget_dsetdefault_ne _ _ (by decide),
      dsetdefault_present _ (by rw [h1]; rfl), h1]
  · intro hv
    have h1 : dget (dset e.top "@timestamp" (.str now)) "host" = Option.none := by
      rw [dget_dset_ne _ _ (by decide)]
      exact hv
    rw [collectMockOne]
    rw [dget_dsetdefault_ne _ _ (by decide), dget_dsetdefault_absent _ h1]
  · intro v hv
    have h1 : dget (dsetdefault (dset e.top "@timestamp" (.str now)) "host"
        (.str host_name)) "sql_instance" = some v := by
      rw [dget_dsetdefault_ne _ _ (by decide), dget_dset_ne _ _ (by decide)]
      exact hv
    rw [collectMockOne]
    rw [dsetdefault_present _ (by rw [h1]; rfl), h1]
  · intro hv
    have h1 : dget (dsetdefault (dset e.top "@timestamp" (.str now)) "host"
        (.str host_name)) "sql_instance" = Option.none := by
      rw [dget_dsetdefault_ne _ _ (by decide), dget_dset_ne _ _ (by decide)]
      exact hv
    rw [collectMockOne]
    rw [dget_dsetdefault_absent _ h1]
  · intro k hk1 hk2 hk3
    rw [collectMockOne]
    rw [dget_dsetdefault_ne _ _ (Ne.symm hk3), dget_dsetdefault_ne _ _ (Ne.symm hk2),
      dget_dset_ne _ _ (Ne.symm hk1)]

/-- Witness for C6 at concrete inputs: a fully populated replay record keeps
its `host`, `sql_instance` and other fields; an empty record gets the
ambient values filled in. -/
theorem C6_collect_mock_enrichment_witness :
    dget (collectMockOne "T0" "ambient-host" "AMBI" evReplayed).top "host" =
      some (.str "prod-host") ∧
    dget (collectMockOne "T0" "ambient-host" "AMBI" evReplayed).top "sql_instance" =
      some (.str "PRODSQL") ∧
    dget (collectMockOne "T0" "ambient-host" "AMBI" (⟨[], Option.none⟩ : Event)).top
      "host" = some (.str "ambient-host") ∧
    dget (collectMockOne "T0" "ambient-host" "AMBI" (⟨[], Option.none⟩ : Event)).top
      "sql_instance" = some (.str "AMBI") ∧
    dget (collectMockOne "T0" "ambient-host" "AMBI" evReplayed).top "event_type" =
      some (.str "blocking") :=
  ⟨(C6_collect_mock_enrichment "T0" "ambient-host" "AMBI" evReplayed).2.1 _ rfl,
   (C6_collect_mock_enrichment "T0" "ambient-host" "AMBI" evReplayed).2.2.2.1 _ rfl,
   (C6_collect_mock_enrichment "T0" "ambient-host" "AMBI" ⟨[], Option.none⟩).2.2.1 rfl,
   (C6_collect_mock_enrichment "T0" "ambient-host" "AMBI" ⟨[], Option.none⟩).2.2.2.2.1 rfl,
   (C6_collect_mock_enrichment "T0" "ambient-host" "AMBI" evReplayed).2.2.2.2.2.2.1
     "event_type" (by decide) (by decide) (by decide)⟩


/-- C3 counterexample: for the payload with both `session_id = 5` and
`query_text`, the derived key is the raw integer 5, not the string "5" the
claim requires (no stringification happens in `_get_latest_collection`). -/
theorem C3_counterexample :
    latestCollectionKey srcSessionAndText = .ok (some (.int 5)) ∧
    some (PyVal.int 5) ≠ some (PyVal.str "5") :=
  ⟨rfl, by decide⟩

/-- C3 as amended: the extraction priority is `session_id` first (the RAW
value, not stringified — `str()` is applied only later when
`_calculate_delta` keys the current batch), then the first 100 characters
of `query_text`, then the raw `deadlock_id`, else the key is absent. -/
theorem C3_key_priority :
    (∀ source : Item, (dget source "session_id").isSome = true →
      latestCollectionKey source = .ok (dget source "session_id")) ∧
    (∀ (source : Item) (s : String), dget source "session_id" = Option.none →
      dget source "query_text" = some (.str s) →
      latestCollectionKey source = .ok (some (.str (s.take 100)))) ∧
    (∀ source : Item, dget source "session_id" = Option.none →
      dget source "query_text" = Option.none →
      (dget source "deadlock_id").isSome = true →
      latestCollectionKey source = .ok (dget source "deadlock_id")) ∧
    (∀ source : Item, dget source "session_id" = Option.none →
      dget source "query_text" = Option.none →
      dget source "deadlock_id" = Option.none →
      latestCollectionKey source = .ok Option.none) := by
  refine ⟨?_, ?_, ?_, ?_⟩
  · intro source h
    rw [latestCollectionKey, if_pos h]
  · intro source s h1 h2
    simp [latestCollectionKey, h1, h2, pySlice, Except.map]
  · intro source h1 h2 h3
    simp [latestCollectionKey, h1, h2, h3]
  · intro source h1 h2 h3
    simp [latestCollectionKey, h1, h2, h3]

/-- Witness for C3 at concrete payloads, one per priority tier. -/
theorem C3_key_priority_witness :
    latestCollectionKey srcSessionAndText = .ok (dget srcSessionAndText "session_id") ∧
    latestCollectionKey [("query_text", .str "SELECT 2"), ("deadlock_id", .int 4)] =
      .ok (some (.str "SELECT 2")) ∧
    latestCollectionKey [("deadlock_id", .int 4)] =
      .ok (dget [("deadlock_id", PyVal.int 4)] "deadlock_id") ∧
    latestCollectionKey [("other", .int 1)] = .ok Option.none := by
  refine ⟨C3_key_priority.1 srcSessionAndText (by decide), ?_, ?_, ?_⟩
  · have h := C3_key_priority.2.1 [("query_text", .str "SELECT 2"), ("deadlock_id", .int 4)]
      "SELECT 2" (by decide) (by decide)
    simpa using h
  · exact C3_key_priority.2.2.1 _ (by decide) (by decide) (by decide)
  · exact C3_key_priority.2.2.2 _ (by decide) (by decide) (by decide)

theorem changedFields_mem {cur prev : Item} {fc : FieldChange}
    (hfc : fc ∈ changedFields cur prev) :
    fc.field ∈ sensitiveFields ∧ (∃ cv, dget cur fc.field = some cv) ∧
      (∃ pv, dget prev fc.field = some pv) := by
  rw [changedFields, List.mem_filterMap] at hfc
  obtain ⟨f, hmem, hf⟩ := hfc
  cases hc : dget cur f with
  | none => rw [hc] at hf; simp at hf
  | some cv =>
    cases hp : dget prev f with
    | none => rw [hc, hp] at hf; simp at hf
    | some pv =>
      rw [hc, hp] at hf
      by_cases hq : pyEq cv pv = true
      · simp [hq] at hf
      · simp only [Bool.not_eq_true] at hq
        simp [hq] at hf
        rw [← hf]
        exact ⟨hmem, ⟨cv, hc⟩, ⟨pv, hp⟩⟩

/-- C7: a sensitive field differing between two events that share an
identity key classifies the pair as "changed" with exactly the one
`FieldChange` carrying the old and new values; a field absent on either
side is silently skipped and never reported as changed (shown in general,
and on the spec's concrete 1000 → 2000 `elapsed_time_ms` example). -/
theorem C7_field_change_detection :
    (∀ (cur prev : Item) (f : String),
      (dget cur f = Option.none ∨ dget prev f = Option.none) →
      ∀ fc ∈ changedFields cur prev, fc.field ≠ f) ∧
    (calculateDelta [evCur7] [("7", evPrev7)] "session_id").changed =
      [(evCur7, [⟨"elapsed_time_ms", .int 1000, .int 2000⟩])] ∧
    (calculateDelta [evCur7] [("7", evPrev7)] "session_id").new = [] ∧
    (calculateDelta [evCur7] [("7", evPrev7)] "session_id").resolved = [] := by
  refine ⟨?_, by decide, by decide, by decide⟩
  intro cur prev f hor fc hfc heq
  obtain ⟨-, ⟨cv, hc⟩, ⟨pv, hp⟩⟩ := changedFields_mem hfc
  rw [heq] at hc hp
  cases hor with
  | inl h => rw [h] at hc; exact Option.noConfusion hc
  | inr h => rw [h] at hp; exact Option.noConfusion hp

/-- Witness for C7: the absent-on-one-side field `wait_time_ms` is not
reported for the concrete pair. -/
theorem C7_field_change_detection_witness :
    ∀ fc ∈ changedFields evCur7 [("session_id", PyVal.int 7), ("wait_time_ms", PyVal.int 5)],
      fc.field ≠ "wait_time_ms" :=
  C7_field_change_detection.1 evCur7
    [("session_id", PyVal.int 7), ("wait_time_ms", PyVal.int 5)] "wait_time_ms"
    (Or.inl rfl)


theorem dset_absent {α : Type} {d : Dict α} {k : String} (v : α)
    (h : dget d k = Option.none) : dset d k v = d ++ [(k, v)] := by
  induction d with
  | nil => rfl
  | cons kv rest ih =>
    obtain ⟨a, b⟩ := kv
    by_cases ha : a = k
    · simp [dget, ha] at h
    · simp [dget, ha] at h
      simp [dset, ha, ih h]

theorem foldl_dset_eq_append (keyField : String) :
    ∀ (X : List Item) (acc : Dict Item),
      (∀ x ∈ X, dget acc (itemKey keyField x) = Option.none) →
      (X.map (itemKey keyField)).Nodup →
      X.foldl (fun d item => dset d (itemKey keyField item) item) acc =
        acc ++ X.map (fun x => (itemKey keyField x, x)) := by
  intro X
  induction X with
  | nil =>
    intro acc _ _
    simp
  | cons x xs ih =>
    intro acc hfresh hnodup
    simp only [List.map_cons, List.nodup_cons, List.mem_map] at hnodup
    have hx : dget acc (itemKey keyField x) = Option.none := hfresh x (by simp)
    have hstep : dset acc (itemKey keyField x) x = acc ++ [(itemKey keyField x, x)] :=
      dset_absent _ hx
    simp only [List.foldl_cons, hstep]
    rw [ih (acc ++ [(itemKey keyField x, x)]) ?_ hnodup.2]
    · simp
    · intro y hy
      have hne : itemKey keyField x ≠ itemKey keyField y := by
        intro he
        exact hnodup.1 ⟨y, hy, he.symm⟩
      cases hd : dget acc (itemKey keyField y) with
      | none =>
        rw [dget_append_right _ hd]
        simp [dget, hne]
      | some w =>
        rw [hfresh y (by simp [hy])] at hd
        exact Option.noConfusion hd

theorem buildByKey_nodup_eq {keyField : String} {X : List Item}
    (h : (X.map (itemKey keyField)).Nodup) :
    buildByKey keyField X = X.map fun x => (itemKey keyField x, x) := by
  have hb := foldl_dset_eq_append keyField X [] (fun x _ => rfl) h
  simpa [buildByKey] using hb

/-- C8 counterexample: two current events sharing identity key "1" collapse
in the `current_by_key` dictionary, so classifying them against an empty
snapshot yields `new = [the last one]`, not the whole batch X — the claim's
"new = X for every batch" fails on duplicate keys. -/
theorem C8_counterexample :
    (calculateDelta [evDupA, evDupB] [] "session_id").new = [evDupB] ∧
    (calculateDelta [evDupA, evDupB] [] "session_id").new ≠ [evDupA, evDupB] :=
  ⟨by decide, by decide⟩

/-- C8 as amended: against an empty previous snapshot a batch X whose
identity keys are pairwise distinct comes back whole as `new`, with
`changed` and `resolved` empty (with duplicate keys only the last event per
key survives the keying dictionary); symmetrically, an empty current batch
resolves everything in the previous snapshot and the visible (new+changed)
output is empty. -/
theorem C8_empty_snapshot :
    (∀ (X : List Item) (keyField : String), (X.map (itemKey keyField)).Nodup →
      (calculateDelta X [] keyField).new = X ∧
      (calculateDelta X [] keyField).changed = [] ∧
      (calculateDelta X [] keyField).resolved = []) ∧
    (∀ (previous : Dict Item) (keyField : String),
      (calculateDelta [] previous keyField).new = [] ∧
      (calculateDelta [] previous keyField).changed = [] ∧
      (calculateDelta [] previous keyField).resolved = previous.map Prod.snd) := by
  constructor
  · intro X keyField h
    have hcn : ∀ k : String, (([] : List String).contains k) = false := fun _ => rfl
    refine ⟨?_, ?_, rfl⟩
    · have hid : ∀ l : List Item,
          List.map (Prod.snd ∘ fun x => (itemKey keyField x, x)) l = l := by
        intro l
        induction l with
        | nil => rfl
        | cons a t ih => simp [ih]
      simp [calculateDelta, buildByKey_nodup_eq h, dkeys, hcn, List.map_map, hid]
    · simp [calculateDelta, dkeys, hcn]
  · intro previous keyField
    have hcn : ∀ k : String, (([] : List String).contains k) = false := fun _ => rfl
    refine ⟨rfl, rfl, ?_⟩
    simp [calculateDelta, buildByKey, dkeys, hcn]

/-- Witness for C8 at concrete inputs: a distinct-key batch against the
empty snapshot, and an empty batch against a one-entry snapshot. -/
theorem C8_empty_snapshot_witness :
    (calculateDelta [evPrev7, evDupA] [] "session_id").new = [evPrev7, evDupA] ∧
    (calculateDelta [evPrev7, evDupA] [] "session_id").changed = [] ∧
    (calculateDelta [evPrev7, evDupA] [] "session_id").resolved = [] ∧
    (calculateDelta [] [("7", evPrev7)] "session_id").new = [] ∧
    (calculateDelta [] [("7", evPrev7)] "session_id").resolved = [evPrev7] :=
  ⟨(C8_empty_snapshot.1 [evPrev7, evDupA] "session_id" (by decide)).1,
   (C8_empty_snapshot.1 [evPrev7, evDupA] "session_id" (by decide)).2.1,
   (C8_empty_snapshot.1 [evPrev7, evDupA] "session_id" (by decide)).2.2,
   (C8_empty_snapshot.2 [("7", evPrev7)] "session_id").1,
   (C8_empty_snapshot.2 [("7", evPrev7)] "session_id").2.2⟩


theorem dkeys_dset_mem {α : Type} {d : Dict α} {k : String} (v : α)
    (h : k ∈ dkeys d) : dkeys (dset d k v) = dkeys d := by
  induction d with
  | nil => simp [dkeys] at h
  | cons ab rest ih =>
    obtain ⟨a, b⟩ := ab
    by_cases ha : a = k
    · simp [dset, ha, dkeys]
    · simp only [dkeys, List.map_cons] at h
      rcases List.mem_cons.mp h with h1 | h1
    
      · exact absurd h1.symm ha
      · have ihh := ih h1
        simp only [dkeys] at ihh
        simp [dset, ha, dkeys, ihh]

theorem dkeys_dset_not_mem {α : Type} {d : Dict α} {k : String} (v : α)
    (h : k ∉ dkeys d) : dkeys (dset d k v) = dkeys d ++ [k] := by
  induction d with
  | nil => simp [dset, dkeys]
  | cons ab rest ih =>
    obtain ⟨a, b⟩ := ab
    simp only [dkeys, List.map_cons, List.mem_cons, not_or] at h
    have ha : a ≠ k := fun he => h.1 he.symm
    have ihh := ih h.2
    simp only [dkeys] at ihh
    simp [dset, ha, dkeys, ihh]

theorem mem_dkeys_dset {α : Type} (d : Dict α) (k : String) (v : α) :
    k ∈ dkeys (dset d k v) := by
  by_cases hm : k ∈ dkeys d
  · rw [dkeys_dset_mem _ hm]
    exact hm
  · rw [dkeys_dset_not_mem _ hm]
    simp

theorem dkeys_subset_dset {α : Type} (d : Dict α) (k : String) (v : α) :
    dkeys d ⊆ dkeys (dset d k v) := by
  by_cases hm : k ∈ dkeys d
  · rw [dkeys_dset_mem _ hm]
    exact List.Subset.refl _
  · rw [dkeys_dset_not_mem _ hm]
    exact List.subset_append_left _ _

theorem buildByKey_keys_nodup (kf : String) (X : List Item) :
    (dkeys (buildByKey kf X)).Nodup := by
  suffices h : ∀ (Y : List Item) (acc : Dict Item), (dkeys acc).Nodup →
      (dkeys (Y.foldl (fun d item => dset d (itemKey kf item) item) acc)).Nodup by
    exact h X [] (by simp [dkeys])
  intro Y
  induction Y with
  | nil =>
    intro acc h
    simpa using h
  | cons x xs ih =>
    intro acc h
    simp only [List.foldl_cons]
    apply ih
    by_cases hm : itemKey kf x ∈ dkeys acc
    · rw [dkeys_dset_mem _ hm]
      exact h
    · rw [dkeys_dset_not_mem _ hm]
      refine h.append (by simp) (List.disjoint_left.mpr ?_)
      intro a ha hc
      simp at hc
      exact hm (hc ▸ ha)

theorem mem_dset {α : Type} {d : Dict α} {k : String} {v : α} {kv : String × α}
    (h : kv ∈ dset d k v) : kv ∈ d ∨ kv = (k, v) := by
  induction d with
  | nil =>
    simp [dset] at h
    exact Or.inr h
  | cons ab rest ih =>
    obtain ⟨a, b⟩ := ab
    by_cases ha : a = k
    · simp only [dset, if_pos ha] at h
      rcases List.mem_cons.mp h with h1 | h1
      · exact Or.inr h1
      · exact Or.inl (List.mem_cons_of_mem _ h1)
    · simp only [dset, if_neg ha] at h
      rcases List.mem_cons.mp h with h1 | h1
      · exact Or.inl (by simp [h1])
      · rcases ih h1 with h2 | h2
        · exact Or.inl (List.mem_cons_of_mem _ h2)
        · exact Or.inr h2

theorem buildByKey_entry_key (kf : String) (X : List Item) :
    ∀ kv ∈ buildByKey kf X, kv.1 = itemKey kf kv.2 := by
  suffices h : ∀ (Y : List Item) (acc : Dict Item),
      (∀ kv ∈ acc, kv.1 = itemKey kf kv.2) →
      ∀ kv ∈ Y.foldl (fun d item => dset d (itemKey kf item) item) acc,
        kv.1 = itemKey kf kv.2 by
    exact h X [] (by simp)
  intro Y
  induction Y with
  | nil =>
    intro acc h kv hm
    exact h kv (by simpa using hm)
  | cons x xs ih =>
    intro acc h kv hm
    refine ih _ ?_ kv hm
    intro kv2 hm2
    rcases mem_dset hm2 with h2 | h2
    · exact h kv2 h2
    · rw [h2]

theorem itemKey_mem_buildByKey (kf : String) {X : List Item} {x : Item}
    (h : x ∈ X) : itemKey kf x ∈ dkeys (buildByKey kf X) := by
  suffices hs : ∀ (Y : List Item) (acc : Dict Item),
      (x ∈ Y ∨ itemKey kf x ∈ dkeys acc) →
      itemKey kf x ∈ dkeys (Y.foldl (fun d item => dset d (itemKey kf item) item) acc) by
    exact hs X [] (Or.inl h)
  intro Y
  induction Y with
  | nil =>
    rintro acc (h1 | h1)
    · simp at h1
    · simpa using h1
  | cons y ys ih =>
    rintro acc (h1 | h1)
    · rcases List.mem_cons.mp h1 with h2 | h2
      · subst h2
        exact ih _ (Or.inr (mem_dkeys_dset _ _ _))
      · exact ih _ (Or.inl h2)
    · exact ih _ (Or.inr (dkeys_subset_dset _ _ _ h1))

theorem dget_isSome_iff_mem {α : Type} (d : Dict α) (k : String) :
    (dget d k).isSome = true ↔ k ∈ dkeys d := by
  induction d with
  | nil => simp [dget, dkeys]
  | cons ab rest ih =>
    obtain ⟨a, b⟩ := ab
    by_cases ha : a = k
    · subst ha
      simp [dget, dkeys]
    · have hne : k ≠ a := fun he => ha he.symm
      simp [dget, dkeys, ha, ih, hne]

theorem mem_of_dget {α : Type} {d : Dict α} {k : String} {v : α}
    (h : dget d k = some v) : (k, v) ∈ d := by
  induction d with
  | nil => simp [dget] at h
  | cons ab rest ih =>
    obtain ⟨a, b⟩ := ab
    by_cases ha : a = k
    · subst ha
      simp [dget] at h
      simp [h]
    · simp only [dget, if_neg ha] at h
      exact List.mem_cons_of_mem _ (ih h)

theorem dget_of_mem_nodup {α : Type} {d : Dict α} {k : String} {v : α}
    (hnd : (dkeys d).Nodup) (h : (k, v) ∈ d) : dget d k = some v := by
  induction d with
  | nil => simp at h
  | cons ab rest ih =>
    obtain ⟨a, b⟩ := ab
    simp only [dkeys, List.map_cons, List.nodup_cons] at hnd
    rcases List.mem_cons.mp h with h1 | h1
    · have hk : k = a := congrArg Prod.fst h1
      have hv : v = b := congrArg Prod.snd h1
      subst hk
      subst hv
      simp [dget]
    · have ha : a ≠ k := by
        intro he
        subst he
        exact hnd.1 (List.mem_map_of_mem Prod.fst h1)
      simp only [dget, if_neg ha]
      exact ih hnd.2 h1


theorem mem_dkeys_filter {p : String × Item → Bool} {B : Dict Item}
    (hnd : (dkeys B).Nodup) (k : String) :
    k ∈ dkeys (B.filter p) ↔ ∃ it, dget B k = some it ∧ p (k, it) = true := by
  constructor
  · intro h
    obtain ⟨kv, hkv, hfst⟩ := List.mem_map.mp h
    obtain ⟨hmem, hp⟩ := List.mem_filter.mp hkv
    refine ⟨kv.2, ?_, ?_⟩
    · subst hfst
      exact dget_of_mem_nodup hnd hmem
    · subst hfst
      exact hp
  · rintro ⟨it, hget, hp⟩
    have hm : (k, it) ∈ B.filter p := List.mem_filter.mpr ⟨mem_of_dget hget, hp⟩
    exact List.mem_map_of_mem Prod.fst hm

theorem changedFields_nil_prev (c : Item) : changedFields c [] = [] := by
  rw [changedFields]
  rw [List.filterMap_eq_nil_iff]
  intro f hf
  cases dget c f <;> rfl

theorem changed_list_keys {prev : Dict Item} {kf : String} :
    ∀ {l : Dict Item}, (∀ kv ∈ l, kv.1 = itemKey kf kv.2) →
    ((l.filterMap fun kv =>
        match dget prev kv.1 with
        | some p =>
          let cf := changedFields kv.2 p
          if cf.isEmpty then Option.none else some (kv.2, cf)
        | Option.none => Option.none).map fun c => itemKey kf c.1) =
      dkeys (l.filter fun kv =>
        !(changedFields kv.2 ((dget prev kv.1).getD [])).isEmpty) := by
  intro l
  induction l with
  | nil => intro _; rfl
  | cons kv rest ih =>
    intro h
    have hkey := h kv (by simp)
    have hrest : ∀ kv2 ∈ rest, kv2.1 = itemKey kf kv2.2 :=
      fun kv2 hm => h kv2 (List.mem_cons_of_mem _ hm)
    cases hp : dget prev kv.1 with
    | none =>
      have hg : (match dget prev kv.1 with
          | some p =>
            let cf := changedFields kv.2 p
            if cf.isEmpty then Option.none else some (kv.2, cf)
          | Option.none => Option.none) = (Option.none : Option (Item × List FieldChange)) := by
        rw [hp]
      have hpred : (!(changedFields kv.2 ((dget prev kv.1).getD [])).isEmpty) = false := by
        rw [hp]
        simp [changedFields_nil_prev]
      simp only [List.filterMap_cons, hg]
      simp only [List.filter_cons, hpred]
      exact ih hrest
    | some p =>
      by_cases hcf : (changedFields kv.2 p).isEmpty = true
      · have hg : (match dget prev kv.1 with
            | some q =>
              let cf := changedFields kv.2 q
              if cf.isEmpty then Option.none else some (kv.2, cf)
            | Option.none => Option.none) = (Option.none : Option (Item × List FieldChange)) := by
          rw [hp]
          simp [hcf]
        have hpred : (!(changedFields kv.2 ((dget prev kv.1).getD [])).isEmpty) = false := by
          rw [hp]
          simp [hcf]
        simp only [List.filterMap_cons, hg]
        simp only [List.filter_cons, hpred]
        exact ih hrest
      · have hg : (match dget prev kv.1 with
            | some q =>
              let cf := changedFields kv.2 q
              if cf.isEmpty then Option.none else some (kv.2, cf)
            | Option.none => Option.none) = some (kv.2, changedFields kv.2 p) := by
          rw [hp]
          simp [hcf]
        have hpred : (!(changedFields kv.2 ((dget prev kv.1).getD [])).isEmpty) = true := by
          rw [hp]
          simp [hcf]
        simp only [List.filterMap_cons, hg, List.filter_cons, hpred, List.map_cons]
        rw [ih hrest]
        simp [dkeys, ← hkey]
  

theorem newKeys_eq (cur : List Item) (prev : Dict Item) (kf : String) :
    newKeys (calculateDelta cur prev kf) kf =
      dkeys ((buildByKey kf cur).filter fun kv => !((dkeys prev).contains kv.1)) := by
  simp only [newKeys, calculateDelta, dkeys, List.map_map]
  apply List.map_congr_left
  intro kv hkv
  have hk := buildByKey_entry_key kf cur kv (List.mem_of_mem_filter hkv)
  simp [Function.comp, ← hk]

theorem changedKeys_eq (cur : List Item) (prev : Dict Item) (kf : String) :
    changedKeys (calculateDelta cur prev kf) kf =
      dkeys (((buildByKey kf cur).filter fun kv => (dkeys prev).contains kv.1).filter
        fun kv => !(changedFields kv.2 ((dget prev kv.1).getD [])).isEmpty) := by
  simp only [changedKeys, calculateDelta]
  exact changed_list_keys fun kv hkv =>
    buildByKey_entry_key kf cur kv (List.mem_of_mem_filter hkv)

theorem filter_snd_eq_filterMap_dget {prev : Dict Item} (p : String → Bool)
    (hnd : (dkeys prev).Nodup) :
    ((dkeys prev).filter p).filterMap (fun k => dget prev k) =
      (prev.filter fun kv => p kv.1).map Prod.snd := by
  induction prev with
  | nil => rfl
  | cons kv rest ih =>
    obtain ⟨a, b⟩ := kv
    simp only [dkeys, List.map_cons, List.nodup_cons] at hnd
    have hcong : ∀ k ∈ (List.map Prod.fst rest).filter p,
        dget ((a, b) :: rest) k = dget rest k := by
      intro k hk
      have hkm := List.mem_of_mem_filter hk
      have hak : a ≠ k := fun he => hnd.1 (he ▸ hkm)
      simp [dget, hak]
    have ihh : (List.filter p (List.map Prod.fst rest)).filterMap
          (fun k => dget rest k) =
        List.map Prod.snd (List.filter (fun kv => p kv.1) rest) := by
      simpa [dkeys] using ih hnd.2
    have hstep : (List.filter p (List.map Prod.fst rest)).filterMap
          (fun k => dget ((a, b) :: rest) k) =
        List.map Prod.snd (List.filter (fun kv => p kv.1) rest) :=
      (List.filterMap_congr hcong).trans ihh
    have hga : dget ((a, b) :: rest) a = some b := by simp [dget]
    cases hpa : p a with
    | true =>
      simp only [dkeys, List.map_cons, List.filter_cons, hpa, if_true,
        List.filterMap_cons, hga, List.map_cons]
      exact congrArg (b :: ·) hstep
    | false =>
      simp only [dkeys, List.map_cons, List.filter_cons, hpa, Bool.false_eq_true,
        if_false]
      exact hstep


/-- C1: the delta classification partitions the current batch by identity
key: the key of every current event lies in exactly one of `new`, `changed`
or (the spec's implicit) `unchanged` class — each class key list is
duplicate-free and together they are exactly the current key set — no event
is discarded (`all` returns the input verbatim), and the resolved events
are exactly the previous entries whose keys lie in
`previous.keys - current.keys`. -/
theorem C1_partition :
    ∀ (currentItems : List Item) (previousItems : Dict Item) (keyField : String),
      (dkeys previousItems).Nodup →
      (calculateDelta currentItems previousItems keyField).all = currentItems ∧
      (∀ k, k ∈ newKeys (calculateDelta currentItems previousItems keyField) keyField ++
            changedKeys (calculateDelta currentItems previousItems keyField) keyField ++
            specUnchangedKeys currentItems previousItems keyField ↔
          k ∈ dkeys (buildByKey keyField currentItems)) ∧
      (newKeys (calculateDelta currentItems previousItems keyField) keyField ++
        changedKeys (calculateDelta currentItems previousItems keyField) keyField ++
        specUnchangedKeys currentItems previousItems keyField).Nodup ∧
      (∀ item ∈ currentItems,
        (newKeys (calculateDelta currentItems previousItems keyField) keyField ++
          changedKeys (calculateDelta currentItems previousItems keyField) keyField ++
          specUnchangedKeys currentItems previousItems keyField).count
            (itemKey keyField item) = 1) ∧
      (calculateDelta currentItems previousItems keyField).resolved =
        (specResolvedKeys currentItems previousItems keyField).filterMap
          (fun k => dget previousItems k) := by
  intro cur prev kf hnd
  have hBnd := buildByKey_keys_nodup kf cur
  have hN := newKeys_eq cur prev kf
  have hC0 := changedKeys_eq cur prev kf
  have hC : changedKeys (calculateDelta cur prev kf) kf =
      dkeys ((buildByKey kf cur).filter fun kv =>
        !(changedFields kv.2 ((dget prev kv.1).getD [])).isEmpty &&
          (dkeys prev).contains kv.1) := by
    rw [hC0, List.filter_filter]
  have hU : specUnchangedKeys cur prev kf =
      dkeys ((buildByKey kf cur).filter fun kv =>
        (dkeys prev).contains kv.1 &&
          (changedFields kv.2 ((dget prev kv.1).getD [])).isEmpty) := rfl
  have hmN : ∀ k, k ∈ newKeys (calculateDelta cur prev kf) kf ↔
      ∃ it, dget (buildByKey kf cur) k = some it ∧
        (!((dkeys prev).contains k)) = true := by
    intro k
    rw [hN]
    exact mem_dkeys_filter hBnd k
  have hmC : ∀ k, k ∈ changedKeys (calculateDelta cur prev kf) kf ↔
      ∃ it, dget (buildByKey kf cur) k = some it ∧
        ((!(changedFields it ((dget prev k).getD [])).isEmpty) &&
          (dkeys prev).contains k) = true := by
    intro k
    rw [hC]
    exact mem_dkeys_filter hBnd k
  have hmU : ∀ k, k ∈ specUnchangedKeys cur prev kf ↔
      ∃ it, dget (buildByKey kf cur) k = some it ∧
        ((dkeys prev).contains k &&
          (changedFields it ((dget prev k).getD [])).isEmpty) = true := by
    intro k
    rw [hU]
    exact mem_dkeys_filter hBnd k
  have hiff : ∀ k, k ∈ newKeys (calculateDelta cur prev kf) kf ++
      changedKeys (calculateDelta cur prev kf) kf ++
      specUnchangedKeys cur prev kf ↔ k ∈ dkeys (buildByKey kf cur) := by
    intro k
    simp only [List.mem_append]
    constructor
    · rintro ((h | h) | h)
      · obtain ⟨it, hget, -⟩ := (hmN k).mp h
        exact (dget_isSome_iff_mem _ _).mp (by rw [hget]; rfl)
      · obtain ⟨it, hget, -⟩ := (hmC k).mp h
        exact (dget_isSome_iff_mem _ _).mp (by rw [hget]; rfl)
      · obtain ⟨it, hget, -⟩ := (hmU k).mp h
        exact (dget_isSome_iff_mem _ _).mp (by rw [hget]; rfl)
    · intro h
      obtain ⟨it, hit⟩ := Option.isSome_iff_exists.mp ((dget_isSome_iff_mem _ _).mpr h)
      by_cases hq : ((dkeys prev).contains k) = true
      · by_cases hcf : (changedFields it ((dget prev k).getD [])).isEmpty = true
        · refine Or.inr ((hmU k).mpr ⟨it, hit, ?_⟩)
          rw [hq, hcf]
          rfl
        · have hcf2 : (changedFields it ((dget prev k).getD [])).isEmpty = false := by
            simpa using hcf
          refine Or.inl (Or.inr ((hmC k).mpr ⟨it, hit, ?_⟩))
          rw [hcf2, hq]
          rfl
      · have hq2 : ((dkeys prev).contains k) = false := by simpa using hq
        refine Or.inl (Or.inl ((hmN k).mpr ⟨it, hit, ?_⟩))
        rw [hq2]
        rfl
  have hsubnd : ∀ (p : String × Item → Bool),
      (dkeys ((buildByKey kf cur).filter p)).Nodup :=
    fun p => List.Nodup.sublist (List.Sublist.map Prod.fst (List.filter_sublist _)) hBnd
  have hndAll : (newKeys (calculateDelta cur prev kf) kf ++
      changedKeys (calculateDelta cur prev kf) kf ++
      specUnchangedKeys cur prev kf).Nodup := by
    have hdNC : (newKeys (calculateDelta cur prev kf) kf).Disjoint
        (changedKeys (calculateDelta cur prev kf) kf) := by
      intro k hk1 hk2
      obtain ⟨it1, -, hp1⟩ := (hmN k).mp hk1
      obtain ⟨it2, -, hp2⟩ := (hmC k).mp hk2
      simp at hp1 hp2
      exact absurd hp2.2 (by simp [hp1])
    have hdNU : (newKeys (calculateDelta cur prev kf) kf).Disjoint
        (specUnchangedKeys cur prev kf) := by
      intro k hk1 hk2
      obtain ⟨it1, -, hp1⟩ := (hmN k).mp hk1
      obtain ⟨it2, -, hp2⟩ := (hmU k).mp hk2
      simp at hp1 hp2
      exact absurd hp2.1 (by simp [hp1])
    have hdCU : (changedKeys (calculateDelta cur prev kf) kf).Disjoint
        (specUnchangedKeys cur prev kf) := by
      intro k hk1 hk2
      obtain ⟨it1, hget1, hp1⟩ := (hmC k).mp hk1
      obtain ⟨it2, hget2, hp2⟩ := (hmU k).mp hk2
      have hit : it1 = it2 := by
        rw [hget1] at hget2
        exact Option.some.inj hget2
      subst hit
      simp at hp1 hp2
      exact absurd hp2.2 (by simp [hp1.1])
    have hnd1 : (newKeys (calculateDelta cur prev kf) kf).Nodup := by
      rw [hN]
      exact hsubnd _
    have hnd2 : (changedKeys (calculateDelta cur prev kf) kf).Nodup := by
      rw [hC]
      exact hsubnd _
    have hnd3 : (specUnchangedKeys cur prev kf).Nodup := by
      rw [hU]
      exact hsubnd _
    refine (hnd1.append hnd2 hdNC).append hnd3 ?_
    rw [List.disjoint_append_left]
    exact ⟨hdNU, hdCU⟩
  refine ⟨rfl, hiff, hndAll, ?_, ?_⟩
  · intro item him
    exact List.count_eq_one_of_mem hndAll
      ((hiff (itemKey kf item)).mpr (itemKey_mem_buildByKey kf him))
  · simp only [calculateDelta, specResolvedKeys]
    exact (filter_snd_eq_filterMap_dget
      (fun k => !(dkeys (buildByKey kf cur)).contains k) hnd).symm

/-- Witness for C1 at a concrete pair of snapshots: previous holds keys "7"
(changed) and "9" (resolved); current holds "7" and the new "1". -/
theorem C1_partition_witness :
    (calculateDelta [evCur7, evDupA] [("7", evPrev7), ("9", evPrev7)]
        "session_id").all = [evCur7, evDupA] ∧
    (newKeys (calculateDelta [evCur7, evDupA] [("7", evPrev7), ("9", evPrev7)]
        "session_id") "session_id" ++
      changedKeys (calculateDelta [evCur7, evDupA] [("7", evPrev7), ("9", evPrev7)]
        "session_id") "session_id" ++
      specUnchangedKeys [evCur7, evDupA] [("7", evPrev7), ("9", evPrev7)]
        "session_id").Nodup ∧
    (newKeys (calculateDelta [evCur7, evDupA] [("7", evPrev7), ("9", evPrev7)]
        "session_id") "session_id" ++
      changedKeys (calculateDelta [evCur7, evDupA] [("7", evPrev7), ("9", evPrev7)]
        "session_id") "session_id" ++
      specUnchangedKeys [evCur7, evDupA] [("7", evPrev7), ("9", evPrev7)]
        "session_id").count (itemKey "session_id" evCur7) = 1 ∧
    (calculateDelta [evCur7, evDupA] [("7", evPrev7), ("9", evPrev7)]
        "session_id").resolved =
      (specResolvedKeys [evCur7, evDupA] [("7", evPrev7), ("9", evPrev7)]
          "session_id").filterMap
        (fun k => dget [("7", evPrev7), ("9", evPrev7)] k) :=
  ⟨(C1_partition [evCur7, evDupA] [("7", evPrev7), ("9", evPrev7)] "session_id"
      (by decide)).1,
   (C1_partition [evCur7, evDupA] [("7", evPrev7), ("9", evPrev7)] "session_id"
      (by decide)).2.2.1,
   (C1_partition [evCur7, evDupA] [("7", evPrev7), ("9", evPrev7)] "session_id"
      (by decide)).2.2.2.1 evCur7 (by decide),
   (C1_partition [evCur7, evDupA] [("7", evPrev7), ("9", evPrev7)] "session_id"
      (by decide)).2.2.2.2⟩

end DbMon
